import Mathlib

/-!
Shallow embedding of the SanityFlowPOS order/inventory/ledger transaction
engine (src/app/api/routes/cashier.py, enhanced_cashier.py, admin.py,
src/app/db/models.py) and proofs about the specified claims.

Modelling conventions:
* SQLAlchemy float columns are modelled as `Rat` (exact arithmetic).
* The session/transaction discipline of `get_db` (src/app/db/db.py) is
  modelled by functions of type `DB -> ... -> Except ApiError (DB × _)`:
  every route body computes a candidate new state; `db.commit()` at the end
  of the route corresponds to returning `.ok`; an `HTTPException` raised
  before the commit corresponds to `.error`, in which case the session is
  closed without commit and the persisted state is the original `DB`
  (sessionmaker is created with autocommit=False; `get_db` closes the
  session in its `finally` block, rolling back uncommitted work).
* Queries issued during a request see the in-session mutated attribute
  values of already-loaded rows (identity map) but, because the session has
  autoflush=False, they do not see rows merely added with `db.add` and not
  yet flushed.  Hence stock values are threaded through the loops while
  `InventoryHistory` queries read the state as of the start of the request.
* Primary keys (`default=lambda: str(uuid4())`) are only assigned when a row
  is INSERTed at flush/commit time.  They are modelled as explicit
  parameters (`newOrderId`, `newItemIds`, ...) supplied by the caller.
-/

namespace POS

/-- `InventoryChangeType` from src/app/db/models.py. -/
inductive InvType
  | sale
  | restock
  | correction
deriving DecidableEq, Repr

/-- `Category` (id, discount); the discount column is read by the routes
(`item.category_obj.discount`).  Modelled from the spec: the snapshot of
src/app/db/models.py does not declare the `discount` column, but the spec
(§3) and every route that prices an item read it as an optional 0–100
percentage. -/
structure CategoryR where
  id : String
  discount : Option Rat
deriving DecidableEq, Repr

/-- `Item` row with its (optional) eagerly-loaded category. -/
structure ItemR where
  id : String
  name : String
  category_obj : Option CategoryR
deriving DecidableEq, Repr

/-- `ItemSize` row from src/app/db/models.py. -/
structure ItemSizeR where
  item_id : String
  size_label : String
  price : Rat
  discount : Option Rat
  stock : Int
deriving DecidableEq, Repr

/-- `InventoryHistory` row from src/app/db/models.py. -/
structure InventoryHistoryR where
  item_id : String
  change : Int
  type : InvType
  description : String
  performed_by_id : String
deriving DecidableEq, Repr

/-- `Order` row.  Modelled from the spec: `shopper_id` is not declared in the
snapshot of src/app/db/models.py but is written and read by every route
(spec §3 gives Order an optional shopper reference). -/
structure OrderR where
  id : String
  transaction_id : String
  amount : Rat
  details : Option String
  cashier_id : String
  shopper_id : Option String
deriving DecidableEq, Repr

/-- `OrderItem` row from src/app/db/models.py. -/
structure OrderItemR where
  id : String
  order_id : String
  item_id : String
  size_label : String
  quantity : Int
  price_at_purchase : Rat
  discount_applied : Option Rat
deriving DecidableEq, Repr

/-- `Shopper` row.  Modelled from the spec: the Shopper model is not in the
snapshot of src/app/db/models.py; the routes look shoppers up by their
unique `customer_code` (spec §3). -/
structure ShopperR where
  id : String
  customer_code : String
deriving DecidableEq, Repr

/-- `Due` row.  Modelled from the spec: the Due model is not in the snapshot
of src/app/db/models.py; per spec §3 it is a signed ledger entry with
shopper reference, optional order reference and free-text description. -/
structure DueR where
  shopper_id : String
  order_id : Option String
  amount : Rat
  description : String
deriving DecidableEq, Repr

/-- The persisted relational state the transaction engine operates on. -/
structure DB where
  items : List ItemR
  item_sizes : List ItemSizeR
  orders : List OrderR
  order_items : List OrderItemR
  inventory_history : List InventoryHistoryR
  shoppers : List ShopperR
  dues : List DueR
deriving DecidableEq, Repr

/-! ## SQL LIKE and the numeric-transaction-id REGEXP filter -/

/-- Matcher for SQL `LIKE`: `%` matches any (possibly empty) sequence of
characters, `_` matches exactly one character, anything else matches
itself.  Used for the `Order.transaction_id.like(...)` and
`InventoryHistory.description.like(...)` filters in cashier.py.
Structural recursion on a fuel argument; every recursive call strictly
decreases `ps.length + s.length`, so fuel `ps.length + s.length + 1` (as
supplied by `sqlLike`) never runs out and the `fuel = 0` branch is
unreachable. -/
def likeCharsFuel : Nat → List Char → List Char → Bool
  | 0, _, _ => false
  | _ + 1, [], [] => true
  | _ + 1, [], _ :: _ => false
  | fuel + 1, '%' :: ps, s =>
      likeCharsFuel fuel ps s ||
        (match s with
         | [] => false
         | _ :: rest => likeCharsFuel fuel ('%' :: ps) rest)
  | fuel + 1, '_' :: ps, s =>
      (match s with
       | [] => false
       | _ :: rest => likeCharsFuel fuel ps rest)
  | fuel + 1, c :: ps, s =>
      (match s with
       | [] => false
       | b :: rest => c == b && likeCharsFuel fuel ps rest)

/-- SQL `LIKE pat` applied to a string. -/
def sqlLike (pat s : String) : Bool :=
  likeCharsFuel (pat.data.length + s.data.length + 1) pat.data s.data

/-- The `REGEXP '^[0-9]+$'` filter used when computing the next transaction
id (cashier.py line 167): nonempty and all digits. -/
def isNumericTxn (s : String) : Bool :=
  !s.data.isEmpty && s.data.all (fun c => c.isDigit)

/-- `cast(Order.transaction_id, Integer)` for a purely numeric id. -/
def txnValue (s : String) : Nat :=
  (s.toNat?).getD 0

/-! ## Basic queries and state updates -/

/-- `db.query(ItemSize).filter(item_id == .., size_label == ..).first()`. -/
def findItemSize (szs : List ItemSizeR) (iid lbl : String) : Option ItemSizeR :=
  szs.find? (fun s => s.item_id == iid && s.size_label == lbl)

/-- `db.query(Item).filter(Item.id == ..).first()` / the `ItemSize.item`
relationship. -/
def findItem (items : List ItemR) (iid : String) : Option ItemR :=
  items.find? (fun it => it.id == iid)

/-- In-place attribute mutation of the row returned by
`findItemSize` (`item_size.stock -= ...` and friends mutate the single row
object the query returned). -/
def updateFirstSize (szs : List ItemSizeR) (iid lbl : String)
    (f : ItemSizeR → ItemSizeR) : List ItemSizeR :=
  match szs with
  | [] => []
  | s :: rest =>
      if s.item_id == iid && s.size_label == lbl then f s :: rest
      else s :: updateFirstSize rest iid lbl f

/-- The `Order.items` relationship (`order_items` rows keyed by order id). -/
def itemsOfOrder (db : DB) (orderId : String) : List OrderItemR :=
  db.order_items.filter (fun oi => oi.order_id == orderId)

/-- Python `f"{x}"` on an optional string attribute; an unset attribute is
`None`, rendered as the string `"None"`. -/
def pyStr : Option String → String
  | none => "None"
  | some s => s

/-- `max(cast(transaction_id, Integer)) ... .scalar() or 0` over the orders
whose transaction id matches `^[0-9]+$` (cashier.py lines 166-167). -/
def lastNumericId (orders : List OrderR) : Nat :=
  (orders.filterMap
      (fun o => if isNumericTxn o.transaction_id then some (txnValue o.transaction_id)
                else none)).foldr max 0

/-- `str(max(last_numeric_id, 999) + 1)` (cashier.py line 170). -/
def nextTransactionId (orders : List OrderR) : String :=
  toString (max (lastNumericId orders) 999 + 1)

/-- cashier.py lines 141-142: the category discount overrides the item-size
discount only when it is not None and strictly positive; otherwise Python's
`item_size.discount or 0.0` yields the size discount with `None`
(and `0.0`, which is the same value) replaced by `0.0`. -/
def resolveEffectiveDiscount (category_discount size_discount : Option Rat) : Rat :=
  match category_discount with
  | some cd => if cd > 0 then cd else size_discount.getD 0
  | none => size_discount.getD 0

/-- The errors the modelled routes can raise (`HTTPException`s, plus
`internal` for an unguarded attribute access on a missing relationship). -/
inductive ApiError
  | shopperNotFound
  | orderNotFound
  | orderItemNotFound
  | itemNotFound
  | itemSizeNotFound
  | insufficientStock
  | invalidReturnQuantity
  | alreadyFullyReturned
  | alreadyReturnedEntire
  | noReturnMode
  | paymentBreakdownMismatch
  | remainingDuesInconsistent
  | remainingBalanceInconsistent
  | internal
deriving DecidableEq, Repr

/-- HTTP status code of each modelled error. -/
def statusOf : ApiError → Nat
  | .shopperNotFound => 404
  | .orderNotFound => 404
  | .orderItemNotFound => 404
  | .itemNotFound => 404
  | .itemSizeNotFound => 404
  | .internal => 500
  | _ => 400

/-! ## Sale path (cashier.py `create_order_for_cashier`, lines 108-242;
the identical per-line loop also appears in enhanced_cashier.py lines
43-78) -/

/-- `OrderItemCreate` from src/app/api/schemas/order.py: `quantity` is a
bare `int`, with no lower bound. -/
structure OrderItemCreate where
  item_id : String
  size_label : String
  quantity : Int
deriving DecidableEq, Repr

/-- `OrderCreate` from src/app/api/schemas/order.py. -/
structure OrderCreate where
  items : List OrderItemCreate
  details : Option String
  customer_code : Option String
  is_paid : Bool
deriving DecidableEq, Repr

/-- An `OrderItem(...)` constructed in the loop but not yet INSERTed (no
primary key, no order id). -/
structure PendingOrderItem where
  item_id : String
  size_label : String
  quantity : Int
  price_at_purchase : Rat
  discount_applied : Option Rat
deriving DecidableEq, Repr

/-- In-session state threaded through the per-line sale loop. -/
structure SaleLoopState where
  sizes : List ItemSizeR
  total : Rat
  pend : List PendingOrderItem
  hist : List InventoryHistoryR
deriving DecidableEq, Repr

/-- One iteration of the sale loop (cashier.py lines 131-163).  Note that the
`InventoryHistory` description interpolates `order_item.id` before the row is
flushed, i.e. while the uuid primary-key default has not fired yet, so the
description always embeds the string `"None"`. -/
def saleStep (items_tbl : List ItemR) (userId : String) (st : SaleLoopState)
    (d : OrderItemCreate) : Except ApiError SaleLoopState :=
  match findItemSize st.sizes d.item_id d.size_label with
  | none => .error .itemSizeNotFound
  | some isz =>
    if isz.stock < d.quantity then
      -- the 400 message reads `item_size.item.name`; a dangling item_id
      -- would raise AttributeError instead
      match findItem items_tbl isz.item_id with
      | none => .error .internal
      | some _ => .error .insufficientStock
    else
      match findItem items_tbl isz.item_id with
      | none => .error .internal  -- `item_size.item.category_obj` on a missing item
      | some itm =>
        let category_discount := itm.category_obj.bind (fun c => c.discount)
        let effective_discount := resolveEffectiveDiscount category_discount isz.discount
        let price_after_discount := isz.price * (1 - effective_discount / 100)
        .ok { sizes := updateFirstSize st.sizes d.item_id d.size_label
                (fun s => { s with stock := s.stock - d.quantity })
            , total := st.total + price_after_discount * (d.quantity : Rat)
            , pend := st.pend ++
                [⟨d.item_id, d.size_label, d.quantity, isz.price, some effective_discount⟩]
            , hist := st.hist ++
                [⟨d.item_id, -d.quantity, .sale,
                  "Sale via cashier. Order Item ID: " ++ pyStr none, userId⟩] }

/-- The `for item_data in order.items` loop of the sale path. -/
def saleLoop (items_tbl : List ItemR) (userId : String) :
    List OrderItemCreate → SaleLoopState → Except ApiError SaleLoopState
  | [], st => .ok st
  | d :: ds, st =>
    match saleStep items_tbl userId st d with
    | .error e => .error e
    | .ok st' => saleLoop items_tbl userId ds st'

/-- Resolution of `order.customer_code` to a shopper id (cashier.py lines
122-127). -/
def resolveShopper (shoppers : List ShopperR) (code : Option String) :
    Except ApiError (Option String) :=
  match code with
  | none => .ok none
  | some c =>
    match shoppers.find? (fun s => s.customer_code == c) with
    | none => .error .shopperNotFound
    | some sh => .ok (some sh.id)

/-- `POST /cashier/orders` (cashier.py `create_order_for_cashier`).
`userId` is the id of the authenticated cashier; `newOrderId` and
`newItemIds` are the uuid primary keys the database assigns at flush. -/
def createOrderForCashier (db : DB) (req : OrderCreate) (userId : String)
    (newOrderId : String) (newItemIds : List String) :
    Except ApiError (DB × OrderR) :=
  match resolveShopper db.shoppers req.customer_code with
  | .error e => .error e
  | .ok shopper_id =>
    match saleLoop db.items userId req.items ⟨db.item_sizes, 0, [], []⟩ with
    | .error e => .error e
    | .ok st =>
      let txn := nextTransactionId db.orders
      let newOrder : OrderR :=
        ⟨newOrderId, txn, st.total, req.details, userId, shopper_id⟩
      let persistedItems : List OrderItemR :=
        (st.pend.zip newItemIds).map
          (fun p => ⟨p.2, newOrderId, p.1.item_id, p.1.size_label, p.1.quantity,
                     p.1.price_at_purchase, p.1.discount_applied⟩)
      let newDues : List DueR :=
        match shopper_id with
        | some sid =>
            if req.is_paid then []
            else [⟨sid, some newOrderId, st.total, "Order " ++ txn⟩]
        | none => []
      .ok ({ db with
               item_sizes := st.sizes
             , orders := db.orders ++ [newOrder]
             , order_items := db.order_items ++ persistedItems
             , inventory_history := db.inventory_history ++ st.hist
             , dues := db.dues ++ newDues }, newOrder)

/-- The state the database holds after the request returns: the committed
new state on success, the untouched original state when an exception rolled
the session back. -/
def persistedAfterSale (db : DB) (req : OrderCreate) (userId newOrderId : String)
    (newItemIds : List String) : DB :=
  match createOrderForCashier db req userId newOrderId newItemIds with
  | .ok (db', _) => db'
  | .error _ => db

/-! ## Return path (cashier.py `process_return`, lines 336-794) -/

/-- `ReturnItemRequest` (cashier.py lines 15-17): `quantity` is a bare `int`
defaulting to 1, with no lower bound. -/
structure ReturnItemRequest where
  item_id : String
  quantity : Int
deriving DecidableEq, Repr

/-- `ReturnRequest` (cashier.py lines 19-25). -/
structure ReturnRequest where
  item_returns : Option (List ReturnItemRequest)
  reason : String
  return_full_order : Bool
  refund_method : Option String
deriving DecidableEq, Repr

/-- `_compute_balances` (cashier.py lines 27-40). -/
structure Balances where
  dues_balance : Rat
  advance_balance : Rat
deriving DecidableEq, Repr

def computeBalances (dues : List DueR) (shopper_id : Option String) : Balances :=
  match shopper_id with
  | none => ⟨0, 0⟩
  | some sid =>
    let total := ((dues.filter (fun d => d.shopper_id == sid)).map
        (fun d => d.amount)).sum
    if total > 0 then ⟨total, 0⟩
    else if total < 0 then ⟨0, -total⟩
    else ⟨0, 0⟩

/-- The description pattern
`f"%Return%Order Item ID: {order_item.id}%"` used to find prior returns of
one order item. -/
def returnOfItemPattern (oiId : String) : String :=
  "%Return%Order Item ID: " ++ oiId ++ "%"

/-- The description pattern `f"%Return%Entire Order ID: {order.id}%"`. -/
def entireOrderPattern (orderId : String) : String :=
  "%Return%Entire Order ID: " ++ orderId ++ "%"

/-- The transaction id pattern `f"RETURN_{order.transaction_id}%"`. -/
def returnTxnPattern (txn : String) : String :=
  "RETURN_" ++ txn ++ "%"

/-- cashier.py lines 370-374: sum of `abs(change)` over the history rows
whose description matches the per-order-item return pattern — this query
filters on the description only, not on `item_id` and not on `type`. -/
def totalReturnedNoItemFilter (hist : List InventoryHistoryR) (oiId : String) : Int :=
  ((hist.filter (fun h => sqlLike (returnOfItemPattern oiId) h.description)).map
      (fun h => |h.change|)).sum

/-- cashier.py lines 403-408 and 609-614: sum of `abs(change)` over history
rows with the order item's `item_id` whose description matches the return
pattern — again with no `type` filter. -/
def totalReturnedForItem (hist : List InventoryHistoryR) (itemId oiId : String) : Int :=
  ((hist.filter (fun h =>
      h.item_id == itemId && sqlLike (returnOfItemPattern oiId) h.description)).map
      (fun h => |h.change|)).sum

/-- cashier.py lines 368-377: every line of the order already returned in
full (per the description-only query). -/
def allItemsReturned (db : DB) (order : OrderR) : Bool :=
  (itemsOfOrder db order.id).all
    (fun oi => !decide (totalReturnedNoItemFilter db.inventory_history oi.id < oi.quantity))

/-- cashier.py lines 363-365: does any `RETURN_<txn>...` order exist. -/
def hasReturnRecords (db : DB) (order : OrderR) : Bool :=
  db.orders.any (fun o => sqlLike (returnTxnPattern order.transaction_id) o.transaction_id)

/-- cashier.py lines 462-463 / 690-691: `func.count` over the same filter. -/
def existingReturnsCount (db : DB) (order : OrderR) : Nat :=
  (db.orders.filter (fun o =>
      sqlLike (returnTxnPattern order.transaction_id) o.transaction_id)).length

/-- One line of the receipt (`returned_items` entries). -/
structure ReturnedLine where
  item_name : String
  quantity : Int
  size_label : String
  price_at_purchase : Rat
  discount_applied : Option Rat
deriving DecidableEq, Repr

/-- Refund allocation outcome plus the `Due` rows it appends.  This block is
written out twice verbatim in the source (cashier.py lines 480-516 and
708-744); it is factored into one definition here. -/
structure Allocation where
  refund_method : String
  applied_to_dues : Rat
  cash_refund : Rat
  added_to_advance : Rat
  new_dues : List DueR
deriving DecidableEq, Repr

def allocateRefund (shopper_id : Option String) (method_req : Option String)
    (total_return_amount : Rat) (balances_before : Balances)
    (orig_txn return_txn return_order_id : String) : Allocation :=
  let m0 := (method_req.getD "cash").toLower
  let m := if m0 == "cash" || m0 == "advance" then m0 else "cash"
  match shopper_id with
  | some sid =>
    let applied_to_dues :=
      if balances_before.dues_balance > 0
      then min total_return_amount balances_before.dues_balance
      else 0
    let dues1 : List DueR :=
      if balances_before.dues_balance > 0 && applied_to_dues > 0 then
        [⟨sid, some return_order_id, -applied_to_dues,
          "Return adjustment for order " ++ orig_txn ++
            ". Return transaction: " ++ return_txn⟩]
      else []
    let remaining := total_return_amount - applied_to_dues
    if remaining > 0 then
      if m == "advance" then
        ⟨m, applied_to_dues, 0, remaining,
          dues1 ++ [⟨sid, some return_order_id, -remaining,
                     "Advance credit from return " ++ return_txn⟩]⟩
      else ⟨m, applied_to_dues, remaining, 0, dues1⟩
    else ⟨m, applied_to_dues, 0, 0, dues1⟩
  | none =>
    -- walk-in: refund as cash (method forced to cash)
    ⟨"cash", 0, total_return_amount, 0, []⟩

/-- Structured result of a successful return. -/
structure ReturnReceipt where
  return_transaction_id : String
  returned_items : List ReturnedLine
  total_items : Nat
  total_return_amount : Rat
  refund_method : String
  applied_to_dues : Rat
  cash_refund : Rat
  added_to_advance : Rat
  balances_before : Balances
  balances_after : Balances
deriving DecidableEq, Repr

/-- Result of `process_return` on success. -/
inductive ReturnOutcome
  /-- full-order mode found nothing left to return: message `"No items to
  return. ..."`, `receipt = None`, empty `returned_items`. -/
  | noItems
  /-- partial mode ended with an empty list (unreachable in practice after
  validation): `"Successfully returned 0 items"`, `receipt = None`. -/
  | partialEmpty
  | receipt (r : ReturnReceipt)
deriving DecidableEq, Repr

/-- State threaded through the full-order return loop (cashier.py lines
401-451). -/
structure FullReturnLoopState where
  sizes : List ItemSizeR
  hist_add : List InventoryHistoryR
  return_order_items : List PendingOrderItem
  returned_items : List ReturnedLine
deriving DecidableEq, Repr

def fullReturnLoop (items_tbl : List ItemR) (hist0 : List InventoryHistoryR)
    (reason userId : String) :
    List OrderItemR → FullReturnLoopState → Except ApiError FullReturnLoopState
  | [], st => .ok st
  | oi :: rest, st =>
    let total_item_returned := totalReturnedForItem hist0 oi.item_id oi.id
    let quantity_to_return := oi.quantity - total_item_returned
    if quantity_to_return > 0 then
      match findItemSize st.sizes oi.item_id oi.size_label with
      | none =>
        -- the 404 message reads `order_item.item.name`
        (match findItem items_tbl oi.item_id with
         | none => .error .internal
         | some _ => .error .itemSizeNotFound)
      | some _ =>
        let item_name := ((findItem items_tbl oi.item_id).map (fun it => it.name)).getD ""
        fullReturnLoop items_tbl hist0 reason userId rest
          { sizes := updateFirstSize st.sizes oi.item_id oi.size_label
              (fun s => { s with stock := s.stock + quantity_to_return })
          , hist_add := st.hist_add ++
              [⟨oi.item_id, quantity_to_return, .correction,
                "Return: " ++ reason ++ ". Order Item ID: " ++ oi.id ++
                  ". Returned entire order. Returned " ++ toString quantity_to_return ++
                  " of size " ++ oi.size_label, userId⟩]
          , return_order_items := st.return_order_items ++
              [⟨oi.item_id, oi.size_label, -quantity_to_return,
                oi.price_at_purchase, oi.discount_applied⟩]
          , returned_items := st.returned_items ++
              [⟨item_name, quantity_to_return, oi.size_label,
                oi.price_at_purchase, oi.discount_applied⟩] }
    else fullReturnLoop items_tbl hist0 reason userId rest st

/-- Validation loop of the partial-return path (cashier.py lines 594-619):
pure reads, no mutation. -/
def partialValidate (db : DB) (order_id : String) :
    List ReturnItemRequest → Except ApiError Unit
  | [] => .ok ()
  | r :: rest =>
    match db.order_items.find? (fun oi => oi.id == r.item_id && oi.order_id == order_id) with
    | none => .error .orderItemNotFound
    | some oi =>
      let total_returned := totalReturnedForItem db.inventory_history oi.item_id oi.id
      if r.quantity > oi.quantity - total_returned then .error .invalidReturnQuantity
      else partialValidate db order_id rest

/-- State threaded through the partial-return mutation loop (cashier.py
lines 631-685). -/
structure PartialReturnLoopState where
  sizes : List ItemSizeR
  hist_add : List InventoryHistoryR
  total_return_amount : Rat
  return_order_items : List PendingOrderItem
  returned_items : List ReturnedLine
deriving DecidableEq, Repr

def partialReturnLoop (db : DB) (order_id reason userId : String) :
    List ReturnItemRequest → PartialReturnLoopState → Except ApiError PartialReturnLoopState
  | [], st => .ok st
  | r :: rest, st =>
    match db.order_items.find? (fun oi => oi.id == r.item_id && oi.order_id == order_id) with
    | none => partialReturnLoop db order_id reason userId rest st  -- `continue`
    | some oi =>
      match findItemSize st.sizes oi.item_id oi.size_label with
      | none =>
        (match findItem db.items oi.item_id with
         | none => .error .internal
         | some _ => .error .itemSizeNotFound)
      | some _ =>
        let item_name := ((findItem db.items oi.item_id).map (fun it => it.name)).getD ""
        let q := r.quantity
        partialReturnLoop db order_id reason userId rest
          { sizes := updateFirstSize st.sizes oi.item_id oi.size_label
              (fun s => { s with stock := s.stock + q })
          , hist_add := st.hist_add ++
              [⟨oi.item_id, q, .correction,
                "Return: " ++ reason ++ ". Order Item ID: " ++ oi.id ++
                  ". Returned " ++ toString q ++ " of size " ++ oi.size_label, userId⟩]
          , total_return_amount := st.total_return_amount +
              oi.price_at_purchase * (1 - (oi.discount_applied.getD 0) / 100) * (q : Rat)
          , return_order_items := st.return_order_items ++
              [⟨oi.item_id, oi.size_label, -q, oi.price_at_purchase, oi.discount_applied⟩]
          , returned_items := st.returned_items ++
              [⟨item_name, q, oi.size_label, oi.price_at_purchase, oi.discount_applied⟩] }

/-- Line total used when summing return amounts:
`price_at_purchase * (1 - ((discount_applied or 0) / 100.0)) * quantity`. -/
def retLineAmount (price : Rat) (discount : Option Rat) (q : Int) : Rat :=
  price * (1 - (discount.getD 0) / 100) * (q : Rat)

/-- `POST /cashier/orders/{order_id}/returns` (cashier.py `process_return`).
`roId` and `roiIds` are the uuids assigned to the reversal `Order` and its
`OrderItem` rows at flush. -/
def processReturn (db : DB) (order_id : String) (req : ReturnRequest)
    (userId roId : String) (roiIds : List String) :
    Except ApiError (DB × ReturnOutcome) :=
  match db.orders.find? (fun o => o.id == order_id) with
  | none => .error .orderNotFound
  | some order =>
    if hasReturnRecords db order && allItemsReturned db order then
      .error .alreadyFullyReturned
    else if req.return_full_order then
      -- full-order path (lines 388-586)
      if db.inventory_history.any
          (fun h => sqlLike (entireOrderPattern order.id) h.description) then
        .error .alreadyReturnedEntire
      else
        match fullReturnLoop db.items db.inventory_history req.reason userId
            (itemsOfOrder db order.id) ⟨db.item_sizes, [], [], []⟩ with
        | .error e => .error e
        | .ok st =>
          match st.returned_items, st.return_order_items with
          | [], _ =>
            -- nothing mutated; the commit commits an unchanged session
            .ok ({ db with
                     item_sizes := st.sizes,
                     inventory_history := db.inventory_history ++ st.hist_add },
                 .noItems)
          | _ :: _, [] =>
            .ok ({ db with
                     item_sizes := st.sizes,
                     inventory_history := db.inventory_history ++ st.hist_add },
                 .noItems)
          | _ :: _, _ :: _ =>
            let total_return_amount :=
              (st.return_order_items.map
                (fun it => retLineAmount it.price_at_purchase it.discount_applied
                             |it.quantity|)).sum
            let cnt := existingReturnsCount db order
            let return_txn := "RETURN_" ++ order.transaction_id ++ "_" ++ toString (cnt + 1)
            let return_order : OrderR :=
              ⟨roId, return_txn, -total_return_amount,
               some ("Return for order " ++ order.transaction_id ++ ": " ++ req.reason),
               userId, order.shopper_id⟩
            let persistedRetItems : List OrderItemR :=
              (st.return_order_items.zip roiIds).map
                (fun p => ⟨p.2, roId, p.1.item_id, p.1.size_label, p.1.quantity,
                           p.1.price_at_purchase, p.1.discount_applied⟩)
            let balances_before := computeBalances db.dues order.shopper_id
            let alloc := allocateRefund order.shopper_id req.refund_method
              total_return_amount balances_before order.transaction_id return_txn roId
            -- marker row for the entire-order return (lines 518-528)
            let marker : List InventoryHistoryR :=
              match (itemsOfOrder db order.id).head? with
              | some first =>
                [⟨first.item_id, 0, .correction,
                  "Return: " ++ req.reason ++ ". Entire Order ID: " ++ order.id ++
                    ". Returned " ++ toString st.returned_items.length ++ " items.",
                  userId⟩]
              | none => []
            let db' : DB :=
              { db with
                  item_sizes := st.sizes
                , orders := db.orders ++ [return_order]
                , order_items := db.order_items ++ persistedRetItems
                , inventory_history := db.inventory_history ++ st.hist_add ++ marker
                , dues := db.dues ++ alloc.new_dues }
            -- receipt total recomputed from the returned_items dicts (lines 541-544)
            let receipt_total :=
              (st.returned_items.map
                (fun it => retLineAmount it.price_at_purchase it.discount_applied
                             it.quantity)).sum
            let balances_after := computeBalances db'.dues order.shopper_id
            .ok (db', .receipt
              ⟨return_txn, st.returned_items, st.returned_items.length, receipt_total,
               alloc.refund_method, alloc.applied_to_dues, alloc.cash_refund,
               alloc.added_to_advance, balances_before, balances_after⟩)
    else
      match req.item_returns with
      | some (r :: rs) =>
        -- partial path (lines 587-792); `elif item_returns` is False for both
        -- None and the empty list
        match partialValidate db order_id (r :: rs) with
        | .error e => .error e
        | .ok _ =>
          match partialReturnLoop db order_id req.reason userId (r :: rs)
              ⟨db.item_sizes, [], 0, [], []⟩ with
          | .error e => .error e
          | .ok st =>
            match st.returned_items, st.return_order_items with
            | [], _ =>
              .ok ({ db with
                       item_sizes := st.sizes,
                       inventory_history := db.inventory_history ++ st.hist_add },
                   .partialEmpty)
            | _ :: _, [] =>
              .ok ({ db with
                       item_sizes := st.sizes,
                       inventory_history := db.inventory_history ++ st.hist_add },
                   .partialEmpty)
            | _ :: _, _ :: _ =>
              let cnt := existingReturnsCount db order
              let return_txn :=
                "RETURN_" ++ order.transaction_id ++ "_" ++ toString (cnt + 1)
              let return_order : OrderR :=
                ⟨roId, return_txn, -st.total_return_amount,
                 some ("Partial return for order " ++ order.transaction_id ++ ": " ++
                   req.reason), userId, order.shopper_id⟩
              let persistedRetItems : List OrderItemR :=
                (st.return_order_items.zip roiIds).map
                  (fun p => ⟨p.2, roId, p.1.item_id, p.1.size_label, p.1.quantity,
                             p.1.price_at_purchase, p.1.discount_applied⟩)
              let balances_before := computeBalances db.dues order.shopper_id
              let alloc := allocateRefund order.shopper_id req.refund_method
                st.total_return_amount balances_before order.transaction_id return_txn roId
              let db' : DB :=
                { db with
                    item_sizes := st.sizes
                  , orders := db.orders ++ [return_order]
                  , order_items := db.order_items ++ persistedRetItems
                  , inventory_history := db.inventory_history ++ st.hist_add
                  , dues := db.dues ++ alloc.new_dues }
              let balances_after := computeBalances db'.dues order.shopper_id
              .ok (db', .receipt
                ⟨return_txn, st.returned_items, st.returned_items.length,
                 st.total_return_amount, alloc.refund_method, alloc.applied_to_dues,
                 alloc.cash_refund, alloc.added_to_advance,
                 balances_before, balances_after⟩)
      | _ => .error .noReturnMode

/-- Persisted state after a return request (same session discipline as
`persistedAfterSale`). -/
def persistedAfterReturn (db : DB) (order_id : String) (req : ReturnRequest)
    (userId roId : String) (roiIds : List String) : DB :=
  match processReturn db order_id req userId roId roiIds with
  | .ok (db', _) => db'
  | .error _ => db

/-! ## Restock (admin.py `restock_item`, lines 477-515) -/

/-- `RestockRequest` from src/app/api/schemas/item.py: `quantity` is
`conint(gt=0)`. -/
structure RestockRequest where
  item_id : String
  size_label : String
  quantity : Int
  description : String
deriving DecidableEq, Repr

def restockItem (db : DB) (r : RestockRequest) (userId : String) :
    Except ApiError DB :=
  match findItem db.items r.item_id with
  | none => .error .itemNotFound
  | some _ =>
    match findItemSize db.item_sizes r.item_id r.size_label with
    | none => .error .itemSizeNotFound
    | some _ =>
      .ok { db with
              item_sizes := updateFirstSize db.item_sizes r.item_id r.size_label
                (fun s => { s with stock := s.stock + r.quantity })
            , inventory_history := db.inventory_history ++
                [⟨r.item_id, r.quantity, .restock, r.description, userId⟩] }

/-! ## Enhanced sale (enhanced_cashier.py `create_enhanced_order_for_cashier`,
lines 16-230) -/

/-- `PaymentBreakdown` from src/app/api/schemas/enhanced_order.py
(`advance_payment` has default 0.0, so `getattr`/`hasattr` always find it). -/
structure PaymentBreakdown where
  order_payment : Rat
  dues_payment : Rat
  advance_payment : Rat
  remaining_dues : Rat
  remaining_order_balance : Rat
deriving DecidableEq, Repr

/-- `EnhancedOrderCreate` from src/app/api/schemas/enhanced_order.py. -/
structure EnhancedOrderCreate where
  items : List OrderItemCreate
  details : Option String
  customer_code : Option String
  is_paid : Bool
  payment_amount : Option Rat
  payment_breakdown : Option PaymentBreakdown
deriving DecidableEq, Repr

def createEnhancedOrder (db : DB) (req : EnhancedOrderCreate) (userId : String)
    (newOrderId : String) (newItemIds : List String) :
    Except ApiError (DB × OrderR) :=
  match resolveShopper db.shoppers req.customer_code with
  | .error e => .error e
  | .ok shopper_id =>
    -- lines 43-78 are the same per-line loop as cashier.py lines 129-163
    match saleLoop db.items userId req.items ⟨db.item_sizes, 0, [], []⟩ with
    | .error e => .error e
    | .ok st =>
      let txn := nextTransactionId db.orders
      let newOrder : OrderR :=
        ⟨newOrderId, txn, st.total, req.details, userId, shopper_id⟩
      let persistedItems : List OrderItemR :=
        (st.pend.zip newItemIds).map
          (fun p => ⟨p.2, newOrderId, p.1.item_id, p.1.size_label, p.1.quantity,
                     p.1.price_at_purchase, p.1.discount_applied⟩)
      let duesResult : Except ApiError (List DueR) :=
        match shopper_id, req.payment_amount, req.payment_breakdown with
        | some sid, some payment_amount, some bd =>
          let total_allocated := bd.order_payment + bd.dues_payment + bd.advance_payment
          if |total_allocated - payment_amount| > 1/100 then
            .error .paymentBreakdownMismatch
          else
            let total_previous_dues :=
              ((db.dues.filter (fun d => d.shopper_id == sid)).map
                (fun d => d.amount)).sum
            if |bd.remaining_dues - max 0 (total_previous_dues - bd.dues_payment)| > 1/100 then
              .error .remainingDuesInconsistent
            else if |bd.remaining_order_balance - max 0 (st.total - bd.order_payment)| > 1/100 then
              .error .remainingBalanceInconsistent
            else
              .ok
                ((if bd.dues_payment > 0 then
                    [⟨sid, some newOrderId, -bd.dues_payment,
                      "Payment toward previous dues for Order " ++ txn⟩]
                  else []) ++
                 (if bd.remaining_order_balance > 0 then
                    [⟨sid, some newOrderId, bd.remaining_order_balance,
                      "Remaining balance for Order " ++ txn⟩]
                  else []) ++
                 (if bd.advance_payment > 0 then
                    [⟨sid, some newOrderId, -bd.advance_payment,
                      "Advance payment for future purchases. Order " ++ txn⟩]
                  else []))
        | some sid, _, _ =>
          if req.is_paid then .ok []
          else .ok [⟨sid, some newOrderId, st.total, "Order " ++ txn⟩]
        | none, _, _ => .ok []
      match duesResult with
      | .error e => .error e
      | .ok newDues =>
        .ok ({ db with
                 item_sizes := st.sizes
               , orders := db.orders ++ [newOrder]
               , order_items := db.order_items ++ persistedItems
               , inventory_history := db.inventory_history ++ st.hist
               , dues := db.dues ++ newDues }, newOrder)

/-- Persisted state after an enhanced-order request. -/
def persistedAfterEnhanced (db : DB) (req : EnhancedOrderCreate)
    (userId newOrderId : String) (newItemIds : List String) : DB :=
  match createEnhancedOrder db req userId newOrderId newItemIds with
  | .ok (db', _) => db'
  | .error _ => db

/-! ## Spec-side definitions

These definitions follow the wording of the specification / claims, to be
compared against the code-side definitions above. -/

/-- Modelled from the spec (§4.1): "returns `category.discount` if present
and >0, else `item_size.discount` or 0". -/
def specEffectiveDiscount (category_discount size_discount : Option Rat) : Rat :=
  match category_discount with
  | some c =>
      if c > 0 then c
      else match size_discount with
           | some s => s
           | none => 0
  | none =>
      match size_discount with
      | some s => s
      | none => 0

/-- Modelled from the claim (C2) wording: "already_returned is the sum of
|change| over InventoryHistory rows of type=correction whose description
correlates to that OrderItem" — correlation being the
`%Return%Order Item ID: <id>%` description pattern the engine uses. -/
def claimAlreadyReturned (hist : List InventoryHistoryR) (oiId : String) : Int :=
  ((hist.filter (fun h =>
      h.type == InvType.correction && sqlLike (returnOfItemPattern oiId) h.description)).map
      (fun h => |h.change|)).sum

/-- Modelled from the spec (§4.2 step 1) / claim C1: the first line of a sale
request that fails validation — `itemSizeNotFound` when no matching ItemSize
exists, `insufficientStock` when the (running) stock is below the requested
quantity — with the stock threaded through the earlier lines exactly as the
per-line loop mutates it. -/
def firstLineFailure (sizes : List ItemSizeR) :
    List OrderItemCreate → Option ApiError
  | [] => none
  | d :: ds =>
    match findItemSize sizes d.item_id d.size_label with
    | none => some .itemSizeNotFound
    | some isz =>
      if isz.stock < d.quantity then some .insufficientStock
      else firstLineFailure
        (updateFirstSize sizes d.item_id d.size_label
          (fun s => { s with stock := s.stock - d.quantity })) ds

/-- Modelled from the spec (§4.1): line total
`price * (1 - effective_discount/100) * quantity`, resolved against the
given catalog state. -/
def specLineTotal (items_tbl : List ItemR) (sizes : List ItemSizeR)
    (d : OrderItemCreate) : Rat :=
  match findItemSize sizes d.item_id d.size_label with
  | none => 0
  | some isz =>
    match findItem items_tbl isz.item_id with
    | none => 0
    | some it =>
        isz.price * (1 - resolveEffectiveDiscount (it.category_obj.bind
          (fun c => c.discount)) isz.discount / 100) * (d.quantity : Rat)

/-- Referential integrity of the `ItemSize.item_id` foreign key: every size
row points at an existing item (enforced by the database schema). -/
def sizesWellFormed (items_tbl : List ItemR) (sizes : List ItemSizeR) : Bool :=
  sizes.all (fun sz => items_tbl.any (fun it => it.id == sz.item_id))

/-- The customer code of a request resolves (or is absent). -/
def shopperResolvesB (shoppers : List ShopperR) (code : Option String) : Bool :=
  match code with
  | none => true
  | some c => shoppers.any (fun s => s.customer_code == c)

/-! ## Result-extraction helpers -/

def saleResultState : Except ApiError (DB × OrderR) → Option DB
  | .ok (db', _) => some db'
  | .error _ => none

def saleResultOrder : Except ApiError (DB × OrderR) → Option OrderR
  | .ok (_, o) => some o
  | .error _ => none

def returnResultState : Except ApiError (DB × ReturnOutcome) → Option DB
  | .ok (db', _) => some db'
  | .error _ => none

def returnResultReceipt : Except ApiError (DB × ReturnOutcome) → Option ReturnReceipt
  | .ok (_, .receipt rc) => some rc
  | _ => none

def stockOf (db : DB) (iid lbl : String) : Option Int :=
  (findItemSize db.item_sizes iid lbl).map (fun s => s.stock)

/-! ## Concrete fixtures used by counterexamples and witnesses -/

/-- One item (no category), one size of price 100 and stock 0; a sale line
with quantity -1 passes the stock check and yields a negative order total. -/
def c10_db : DB :=
  ⟨[⟨"i1", "Shirt", none⟩], [⟨"i1", "M", 100, none, 0⟩], [], [], [], [], []⟩

def c10_req : OrderCreate := ⟨[⟨"i1", "M", -1⟩], none, none, true⟩

/-- Plain two-line catalog for the C10 witness sale. -/
def c10w_db : DB :=
  ⟨[⟨"i1", "Shirt", some ⟨"c1", some 0⟩⟩], [⟨"i1", "M", 100, some 10, 5⟩],
   [], [], [], [], []⟩

def c10w_req : OrderCreate := ⟨[⟨"i1", "M", 2⟩], none, none, true⟩

/-- Sale fixture for C7: one line of quantity 2. -/
def c7_db : DB :=
  ⟨[⟨"i1", "Shirt", none⟩], [⟨"i1", "M", 100, none, 5⟩], [], [], [], [], []⟩

def c7_req : OrderCreate := ⟨[⟨"i1", "M", 2⟩], none, none, true⟩

/-- C5 scenario: shopper s1 owes 50; order o1 worth 80 is returned in full
with refund method "cash". -/
def c5_db : DB :=
  ⟨[⟨"i1", "Shirt", none⟩], [⟨"i1", "M", 80, none, 0⟩],
   [⟨"o1", "1000", 80, none, "u1", some "s1"⟩],
   [⟨"oi1", "o1", "i1", "M", 1, 80, some 0⟩],
   [], [⟨"s1", "C001"⟩], [⟨"s1", none, 50, "old due"⟩]⟩

def c5_req : ReturnRequest := ⟨none, "Customer return", true, some "cash"⟩

/-- C3 scenario: order o1 has already been returned in full (a RETURN_ order
exists and the only line's returned quantity equals its purchased
quantity). -/
def c3_db : DB :=
  ⟨[⟨"i1", "Shirt", none⟩], [⟨"i1", "M", 80, none, 2⟩],
   [⟨"o1", "1000", 160, none, "u1", none⟩,
    ⟨"ro1", "RETURN_1000_1", -160, some "Return for order 1000: Customer return",
     "u1", none⟩],
   [⟨"oi1", "o1", "i1", "M", 2, 80, some 0⟩,
    ⟨"ri1", "ro1", "i1", "M", -2, 80, some 0⟩],
   [⟨"i1", 2, .correction,
     "Return: Customer return. Order Item ID: oi1. Returned entire order. Returned 2 of size M",
     "u1"⟩,
    ⟨"i1", 0, .correction,
     "Return: Customer return. Entire Order ID: o1. Returned 1 items.", "u1"⟩],
   [], []⟩

def c3_order : OrderR := ⟨"o1", "1000", 160, none, "u1", none⟩

def c3_req : ReturnRequest := ⟨none, "Customer return", true, some "cash"⟩

/-- C4 scenario: a partial return of quantity -1 against a line of quantity
5 while the size has stock 0. -/
def c4_db : DB :=
  ⟨[⟨"i1", "Shirt", none⟩], [⟨"i1", "M", 10, none, 0⟩],
   [⟨"o1", "1000", 50, none, "u1", none⟩],
   [⟨"oi1", "o1", "i1", "M", 5, 10, some 0⟩],
   [], [], []⟩

def c4_req : ReturnRequest := ⟨some [⟨"oi1", -1⟩], "r", false, none⟩

/-- C2 scenario: a correction-type history row for a *different* item whose
admin-supplied description happens to match the return pattern of order item
oi1.  The claim's formula counts it; the code's item_id-filtered query does
not. -/
def c2_db : DB :=
  ⟨[⟨"iA", "A", none⟩], [⟨"iA", "M", 10, none, 5⟩],
   [⟨"o1", "1000", 10, none, "u1", none⟩],
   [⟨"oi1", "o1", "iA", "M", 1, 10, some 0⟩],
   [⟨"iB", 1, .correction, "Correction: Return adjust Order Item ID: oi1", "u9"⟩],
   [], []⟩

def c2_req : ReturnRequest := ⟨some [⟨"oi1", 1⟩], "r", false, none⟩

/-- C9 fixtures: shopper s1 with 30 of previous dues, an order of total 50. -/
def c9_db : DB :=
  ⟨[⟨"i1", "Shirt", none⟩], [⟨"i1", "M", 50, none, 5⟩],
   [], [], [], [⟨"s1", "C001"⟩], [⟨"s1", none, 30, "old due"⟩]⟩

/-- Breakdown sums to 90 against a stated payment of 100 (off by 10). -/
def c9_req_bad : EnhancedOrderCreate :=
  ⟨[⟨"i1", "M", 1⟩], none, some "C001", true, some 100, some ⟨50, 30, 10, 0, 0⟩⟩

/-- Consistent breakdown: 20 + 30 + 50 = 100; remaining dues 0, remaining
order balance 30. -/
def c9_req_ok : EnhancedOrderCreate :=
  ⟨[⟨"i1", "M", 1⟩], none, some "C001", true, some 100, some ⟨20, 30, 50, 0, 30⟩⟩

/-! ## Counterexamples and the code-bug evaluation -/

/-- Claim C10, counterexample.  The claim states the persisted order total is
the sum of line totals "floored at 0: the persisted Order.amount for a sale
is never negative".  The sale path has no flooring: the request schema
accepts a line of quantity -1, which passes the `stock < quantity` check
(stock 0, quantity -1) and yields a committed Order.amount of -100 < 0. -/
theorem c10_counterexample :
    (saleResultOrder (createOrderForCashier c10_db c10_req "u1" "o1" ["oiX"])).map
        (fun o => o.amount) = some (-100) ∧ ((-100 : Rat) < 0) := by
  refine ⟨by with_unfolding_all rfl, by norm_num⟩

/-- Claim C7, evaluation at the failing input.  The sale-path
InventoryHistory row does carry type=sale and change = -quantity, but its
description interpolates `order_item.id` *before* the row is flushed, while
the uuid primary-key default has not fired, so every sale row reads
"... Order Item ID: None" instead of embedding the identifier ("oiX") the
OrderItem is actually persisted under. -/
theorem c7_evaluation :
    (saleResultState (createOrderForCashier c7_db c7_req "u1" "o1" ["oiX"])).map
        (fun d => d.inventory_history) =
      some [⟨"i1", -2, InvType.sale, "Sale via cashier. Order Item ID: None", "u1"⟩] ∧
    (saleResultState (createOrderForCashier c7_db c7_req "u1" "o1" ["oiX"])).map
        (fun d => d.order_items) =
      some [⟨"oiX", "o1", "i1", "M", 2, 100, some 0⟩] ∧
    "Sale via cashier. Order Item ID: None" ≠ "Sale via cashier. Order Item ID: oiX" := by
  refine ⟨by with_unfolding_all rfl, by with_unfolding_all rfl, by decide⟩

/-- Claim C3, counterexample.  `c3_db` holds an order whose only line is
fully returned (already-returned sum 2 = purchased quantity 2) and for which
a RETURN_ order exists, i.e. exactly the state after a successful full-order
return.  A subsequent `return_full_order=true` call does not succeed with an
empty returned-items list as the claim states: it is rejected with the 400
"already been fully returned" error. -/
theorem c3_counterexample :
    allItemsReturned c3_db c3_order = true ∧
    claimAlreadyReturned c3_db.inventory_history "oi1" = 2 ∧
    processReturn c3_db "o1" c3_req "u1" "ro2" ["ri2"] =
      .error .alreadyFullyReturned ∧
    statusOf .alreadyFullyReturned = 400 := by
  refine ⟨by with_unfolding_all rfl, by with_unfolding_all rfl,
    by with_unfolding_all rfl, rfl⟩

/-- Claim C4, counterexample.  The partial-return schema does not forbid
negative quantities; a return line of quantity -1 passes the
remaining-quantity check (-1 > 5 - 0 is false) and then `stock += -1`
drives the stock of the size from 0 to -1: the stock >= 0 invariant is not
preserved by every accepted request. -/
theorem c4_counterexample :
    ((returnResultState (processReturn c4_db "o1" c4_req "u1" "ro1" ["ri1"])).map
        (fun d => stockOf d "i1" "M")) = some (some (-1)) ∧ ((-1 : Int) < 0) := by
  refine ⟨by with_unfolding_all rfl, by norm_num⟩

/-- Claim C2, counterexample.  The claim computes already_returned over
history rows of type=correction whose description correlates to the
OrderItem and mandates rejection whenever the requested quantity exceeds
original - already_returned.  `c2_db` holds a correction row for a
*different* item (iB) whose description matches oi1's return pattern: the
claim's formula yields 1, so a request of quantity 1 > 1 - 1 = 0 must be
rejected — but the code's query additionally filters on
`item_id == order_item.item_id`, counts 0, accepts the request, and commits
a stock increment (5 to 6). -/
theorem c2_counterexample :
    claimAlreadyReturned c2_db.inventory_history "oi1" = 1 ∧
    (1 : Int) > 1 - claimAlreadyReturned c2_db.inventory_history "oi1" ∧
    ((returnResultState (processReturn c2_db "o1" c2_req "u1" "ro1" ["ri1"])).map
        (fun d => stockOf d "iA" "M")) = some (some 6) := by
  refine ⟨by with_unfolding_all rfl, by with_unfolding_all decide,
    by with_unfolding_all rfl⟩

/-! ## C8: transaction id generation -/

/-- An order carrying only a transaction id, for concrete instances. -/
def mkOrderWithTxn (txn : String) : OrderR := ⟨"", txn, 0, none, "", none⟩

lemma le_lastNumericId (orders : List OrderR) (o : OrderR) (ho : o ∈ orders)
    (hn : isNumericTxn o.transaction_id = true) :
    txnValue o.transaction_id ≤ lastNumericId orders := by
  induction orders with
  | nil => simp at ho
  | cons a as ih =>
    rcases List.mem_cons.mp ho with h | h
    · subst h
      simp only [lastNumericId, List.filterMap_cons, hn, if_true, List.foldr_cons]
      exact le_max_left _ _
    · have hrec := ih h
      by_cases hna : isNumericTxn a.transaction_id = true
      · simp only [lastNumericId, List.filterMap_cons, hna, if_true, List.foldr_cons]
        simp only [lastNumericId] at hrec
        exact le_trans hrec (le_max_right _ _)
      · simp only [lastNumericId, List.filterMap_cons, hna, if_false, Bool.false_eq_true,
          ite_false]
        simpa only [lastNumericId] using hrec

lemma lastNumericId_lt_1000 (orders : List OrderR)
    (h : ∀ o ∈ orders, isNumericTxn o.transaction_id = true →
      txnValue o.transaction_id < 1000) :
    lastNumericId orders < 1000 := by
  induction orders with
  | nil => simp [lastNumericId]
  | cons a as ih =>
    have has := ih (fun o ho hn => h o (List.mem_cons_of_mem _ ho) hn)
    by_cases hna : isNumericTxn a.transaction_id = true
    · have ha := h a (List.mem_cons_self _ _) hna
      simp only [lastNumericId, List.filterMap_cons, hna, if_true, List.foldr_cons]
      simp only [lastNumericId] at has
      exact max_lt ha has
    · simp only [lastNumericId, List.filterMap_cons, hna, Bool.false_eq_true, ite_false]
      simpa only [lastNumericId] using has

/-- Claim C8: every sale's transaction id is the decimal string of
`max(last_numeric_id, 999) + 1`, an integer that is at least 1000 and is
strictly greater than every existing purely-numeric transaction id
(non-numeric ids, including RETURN_-prefixed ones, are filtered out by the
`^[0-9]+$` REGEXP); `createOrderForCashier` assigns exactly this id; with
existing ids 999, 1005, abc the next id is "1006", and when no numeric id
reaches 1000 the next id is "1000". -/
theorem c8_next_transaction_id :
    (∀ orders : List OrderR,
       nextTransactionId orders = toString (max (lastNumericId orders) 999 + 1) ∧
       1000 ≤ max (lastNumericId orders) 999 + 1) ∧
    (∀ (orders : List OrderR) (o : OrderR), o ∈ orders →
       isNumericTxn o.transaction_id = true →
       txnValue o.transaction_id < max (lastNumericId orders) 999 + 1) ∧
    (∀ db req uid oid ids db' o,
       createOrderForCashier db req uid oid ids = .ok (db', o) →
       o.transaction_id = nextTransactionId db.orders) ∧
    nextTransactionId
      [mkOrderWithTxn "999", mkOrderWithTxn "1005", mkOrderWithTxn "abc"] = "1006" ∧
    (∀ orders : List OrderR,
       (∀ o ∈ orders, isNumericTxn o.transaction_id = true →
          txnValue o.transaction_id < 1000) →
       nextTransactionId orders = "1000") := by
  refine ⟨?_, ?_, ?_, by with_unfolding_all rfl, ?_⟩
  · intro orders
    refine ⟨rfl, ?_⟩
    have := le_max_right (lastNumericId orders) 999
    omega
  · intro orders o ho hn
    have h1 := le_lastNumericId orders o ho hn
    have h2 := le_max_left (lastNumericId orders) 999
    omega
  · intro db req uid oid ids db' o h
    unfold createOrderForCashier at h
    cases hr : resolveShopper db.shoppers req.customer_code with
    | error e => rw [hr] at h; exact absurd h (by simp)
    | ok sid =>
      rw [hr] at h
      cases hs : saleLoop db.items uid req.items ⟨db.item_sizes, 0, [], []⟩ with
      | error e => rw [hs] at h; exact absurd h (by simp)
      | ok st =>
        rw [hs] at h
        simp only [Except.ok.injEq, Prod.mk.injEq] at h
        rw [← h.2]
  · intro orders h
    have hlt := lastNumericId_lt_1000 orders h
    unfold nextTransactionId
    rw [max_eq_right (by omega : lastNumericId orders ≤ 999)]
    with_unfolding_all rfl

/-- Witness for C8: the strict-majorization conjunct discharged on the
concrete id set 999 / 1005 / abc. -/
theorem c8_witness :
    txnValue (mkOrderWithTxn "1005").transaction_id <
      max (lastNumericId
        [mkOrderWithTxn "999", mkOrderWithTxn "1005", mkOrderWithTxn "abc"]) 999 + 1 :=
  c8_next_transaction_id.2.1
    [mkOrderWithTxn "999", mkOrderWithTxn "1005", mkOrderWithTxn "abc"]
    (mkOrderWithTxn "1005") (by decide) (by decide)

/-! ## C6: effective-discount resolution -/

lemma resolveEffectiveDiscount_eq_spec (cd sd : Option Rat) :
    resolveEffectiveDiscount cd sd = specEffectiveDiscount cd sd := by
  cases cd with
  | none => cases sd <;> simp [resolveEffectiveDiscount, specEffectiveDiscount]
  | some c => cases sd <;> simp [resolveEffectiveDiscount, specEffectiveDiscount]

/-- Claim C6: the effective discount used in pricing is the category
discount when present and strictly positive, otherwise the item-size
discount (or 0 when absent); in particular a category discount of 0 does
not override a nonzero item-size discount, and a successful sale-loop step
snapshots exactly this value onto the created order line. -/
theorem c6_effective_discount :
    (∀ cd sd : Option Rat,
       resolveEffectiveDiscount cd sd = specEffectiveDiscount cd sd) ∧
    resolveEffectiveDiscount (some 0) (some 10) = 10 ∧
    resolveEffectiveDiscount (some 25) (some 10) = 25 ∧
    (∀ (items_tbl : List ItemR) (uid : String) (st : SaleLoopState)
       (d : OrderItemCreate) (st' : SaleLoopState) (isz : ItemSizeR) (itm : ItemR),
       saleStep items_tbl uid st d = .ok st' →
       findItemSize st.sizes d.item_id d.size_label = some isz →
       findItem items_tbl isz.item_id = some itm →
       st'.pend = st.pend ++ [⟨d.item_id, d.size_label, d.quantity, isz.price,
         some (specEffectiveDiscount (itm.category_obj.bind (fun c => c.discount))
           isz.discount)⟩]) := by
  refine ⟨resolveEffectiveDiscount_eq_spec,
    by norm_num [resolveEffectiveDiscount],
    by norm_num [resolveEffectiveDiscount], ?_⟩
  intro items_tbl uid st d st' isz itm h hf hi
  simp only [saleStep, hf] at h
  by_cases hstock : isz.stock < d.quantity
  · rw [if_pos hstock] at h
    cases hfi : findItem items_tbl isz.item_id <;> rw [hfi] at h <;> simp at h
  · rw [if_neg hstock, hi] at h
    simp only [Except.ok.injEq] at h
    rw [← h, ← resolveEffectiveDiscount_eq_spec]

/-- Witness for C6: the sale-step conjunct discharged on a concrete catalog
with category discount 0 and item-size discount 10 (the size discount
wins). -/
theorem c6_witness :
    (⟨[⟨"i1", "M", 100, some 10, 4⟩], 90, [⟨"i1", "M", 1, 100, some 10⟩],
      [⟨"i1", -1, InvType.sale, "Sale via cashier. Order Item ID: None", "u"⟩]⟩ :
        SaleLoopState).pend
      = ([] : List PendingOrderItem) ++ [⟨"i1", "M", 1, 100,
          some (specEffectiveDiscount
            ((some (⟨"c1", some 0⟩ : CategoryR)).bind (fun c => c.discount))
            (some 10))⟩] :=
  c6_effective_discount.2.2.2 [⟨"i1", "Shirt", some ⟨"c1", some 0⟩⟩] "u"
    ⟨[⟨"i1", "M", 100, some 10, 5⟩], 0, [], []⟩ ⟨"i1", "M", 1⟩
    ⟨[⟨"i1", "M", 100, some 10, 4⟩], 90, [⟨"i1", "M", 1, 100, some 10⟩],
      [⟨"i1", -1, InvType.sale, "Sale via cashier. Order Item ID: None", "u"⟩]⟩
    ⟨"i1", "M", 100, some 10, 5⟩ ⟨"i1", "Shirt", some ⟨"c1", some 0⟩⟩
    (by with_unfolding_all rfl) rfl rfl

/-! ## C5: refund allocation on returns -/

lemma toLower_cash : ("cash" : String).toLower = "cash" := by
  with_unfolding_all rfl

lemma toLower_advance : ("advance" : String).toLower = "advance" := by
  with_unfolding_all rfl

/-- Claim C5: with a shopper attached, a return's refund is applied first
against the positive dues balance up to its size; the remainder goes to
cash unless the method is "advance"; the three parts always sum to the
refund amount.  Walk-in returns (no shopper) refund everything as cash.
The concrete scenario: dues balance 50, goods worth 80, method "cash" gives
applied_to_dues=50, cash_refund=30, added_to_advance=0 and a post-return
dues balance of 0. -/
theorem c5_refund_allocation :
    (∀ (sid : String) (m : Option String) (total : Rat) (B : Balances)
       (t1 t2 roid : String), 0 ≤ total →
       (allocateRefund (some sid) m total B t1 t2 roid).applied_to_dues =
         (if B.dues_balance > 0 then min total B.dues_balance else 0) ∧
       (allocateRefund (some sid) m total B t1 t2 roid).applied_to_dues +
         (allocateRefund (some sid) m total B t1 t2 roid).cash_refund +
         (allocateRefund (some sid) m total B t1 t2 roid).added_to_advance = total ∧
       ((m = none ∨ m = some "cash") →
         (allocateRefund (some sid) m total B t1 t2 roid).added_to_advance = 0) ∧
       (m = some "advance" →
         (allocateRefund (some sid) m total B t1 t2 roid).cash_refund = 0)) ∧
    (∀ (m : Option String) (total : Rat) (B : Balances) (t1 t2 roid : String),
       allocateRefund none m total B t1 t2 roid = ⟨"cash", 0, total, 0, []⟩) ∧
    (returnResultReceipt (processReturn c5_db "o1" c5_req "u1" "ro1" ["ri1"])).map
        (fun r => (r.applied_to_dues, r.cash_refund, r.added_to_advance,
                   r.balances_after.dues_balance)) = some (50, 30, 0, 0) := by
  refine ⟨?_, ?_, by with_unfolding_all rfl⟩
  · intro sid m total B t1 t2 roid htot
    have happ : (allocateRefund (some sid) m total B t1 t2 roid).applied_to_dues =
        (if B.dues_balance > 0 then min total B.dues_balance else 0) := by
      simp only [allocateRefund]
      split_ifs <;> simp_all
    refine ⟨happ, ?_, ?_, ?_⟩
    · by_cases hd : B.dues_balance > 0
      · have hmin : min total B.dues_balance ≤ total := min_le_left _ _
        simp only [allocateRefund]
        split_ifs with h1 h2 h3 h2 h3 <;> simp_all
      · simp only [allocateRefund]
        split_ifs with h1 h2 h3 h2 h3 <;> simp_all
        all_goals linarith
    · intro hm
      have h0 : m.getD "cash" = "cash" := by rcases hm with rfl | rfl <;> rfl
      simp only [allocateRefund, h0, toLower_cash]
      split_ifs <;> simp_all
    · intro hm
      subst hm
      simp only [allocateRefund, Option.getD_some, toLower_advance]
      split_ifs <;> simp_all
  · intro m total B t1 t2 roid
    simp [allocateRefund]

/-- Witness for C5: the shopper-attached allocation conjunct discharged at
total 80 against a dues balance of 50 with method "cash". -/
theorem c5_witness :
    (allocateRefund (some "s") (some "cash") 80 ⟨50, 0⟩ "t1" "t2" "ro").applied_to_dues
      = 50 := by
  have h := (c5_refund_allocation.1 "s" (some "cash") 80 ⟨50, 0⟩ "t1" "t2" "ro"
    (by norm_num)).1
  rw [h]
  norm_num

/-! ## C3 (amended): repeating a full-order return -/

/-- Claim C3, amended: once a RETURN_ order exists for an order and every
line reports as fully returned, any further return call — in particular a
`return_full_order=true` call — is rejected up front with the 400
"already been fully returned" error, and the persisted state is unchanged
(no new InventoryHistory, Due, Order or OrderItem rows, no stock change);
it is not the empty-list success the original claim describes. -/
theorem c3_repeat_full_return :
    ∀ (db : DB) (order_id : String) (req : ReturnRequest) (uid roid : String)
      (ids : List String) (order : OrderR),
      db.orders.find? (fun o => o.id == order_id) = some order →
      hasReturnRecords db order = true →
      allItemsReturned db order = true →
      processReturn db order_id req uid roid ids = .error .alreadyFullyReturned ∧
      persistedAfterReturn db order_id req uid roid ids = db ∧
      statusOf .alreadyFullyReturned = 400 := by
  intro db order_id req uid roid ids order hfind hret hall
  have hp : processReturn db order_id req uid roid ids =
      .error .alreadyFullyReturned := by
    simp only [processReturn, hfind, hret, hall, Bool.and_self, if_true]
  refine ⟨hp, ?_, rfl⟩
  unfold persistedAfterReturn
  rw [hp]

/-- Witness for C3: the amended theorem discharged on the concrete
fully-returned fixture. -/
theorem c3_witness :
    processReturn c3_db "o1" c3_req "u1" "ro2" ["ri2"] =
      .error .alreadyFullyReturned ∧
    persistedAfterReturn c3_db "o1" c3_req "u1" "ro2" ["ri2"] = c3_db ∧
    statusOf .alreadyFullyReturned = 400 :=
  c3_repeat_full_return c3_db "o1" c3_req "u1" "ro2" ["ri2"] c3_order
    (by with_unfolding_all rfl) (by with_unfolding_all rfl)
    (by with_unfolding_all rfl)

/-! ## C2 (amended): the partial-return quantity guard -/

lemma partialValidate_reject (db : DB) (order_id : String) :
    ∀ l : List ReturnItemRequest,
      (∀ r ∈ l, ∃ oi, db.order_items.find?
          (fun oi => oi.id == r.item_id && oi.order_id == order_id) = some oi) →
      (∃ r ∈ l, ∃ oi, db.order_items.find?
          (fun oi => oi.id == r.item_id && oi.order_id == order_id) = some oi ∧
          oi.quantity - totalReturnedForItem db.inventory_history oi.item_id oi.id
            < r.quantity) →
      partialValidate db order_id l = .error .invalidReturnQuantity := by
  intro l
  induction l with
  | nil => rintro _ ⟨r, hr, _⟩; simp at hr
  | cons r rest ih =>
    intro h1 h2
    obtain ⟨oi, hoi⟩ := h1 r (List.mem_cons_self _ _)
    simp only [partialValidate, hoi]
    by_cases hq : r.quantity >
        oi.quantity - totalReturnedForItem db.inventory_history oi.item_id oi.id
    · rw [if_pos hq]
    · rw [if_neg hq]
      apply ih (fun r' hr' => h1 r' (List.mem_cons_of_mem _ hr'))
      obtain ⟨r', hr', oi', hoi', hq'⟩ := h2
      rcases List.mem_cons.mp hr' with rfl | hmem
      · rw [hoi] at hoi'
        cases hoi'
        exact absurd hq' (by omega)
      · exact ⟨r', hmem, oi', hoi', hq'⟩

/-- Claim C2, amended: for a partial return, already_returned is computed as
the sum of |change| over InventoryHistory rows **with the order item's
item_id** whose description matches the `%Return%Order Item ID: <id>%`
pattern — with no restriction on the row type (not only type=correction as
the original claim states).  Whenever every requested line resolves to an
order line and some requested quantity exceeds
original_quantity - already_returned, the request is rejected with
InvalidReturnQuantity (400) and the persisted state is unchanged. -/
theorem c2_partial_return_guard :
    ∀ (db : DB) (order_id : String) (req : ReturnRequest) (uid roid : String)
      (ids : List String) (order : OrderR) (l : List ReturnItemRequest),
      db.orders.find? (fun o => o.id == order_id) = some order →
      (hasReturnRecords db order && allItemsReturned db order) = false →
      req.return_full_order = false →
      req.item_returns = some l →
      (∀ r ∈ l, ∃ oi, db.order_items.find?
          (fun oi => oi.id == r.item_id && oi.order_id == order_id) = some oi) →
      (∃ r ∈ l, ∃ oi, db.order_items.find?
          (fun oi => oi.id == r.item_id && oi.order_id == order_id) = some oi ∧
          oi.quantity - totalReturnedForItem db.inventory_history oi.item_id oi.id
            < r.quantity) →
      processReturn db order_id req uid roid ids = .error .invalidReturnQuantity ∧
      persistedAfterReturn db order_id req uid roid ids = db ∧
      statusOf .invalidReturnQuantity = 400 := by
  intro db order_id req uid roid ids order l hfind hguard hfull hitems h1 h2
  cases l with
  | nil => obtain ⟨r, hr, _⟩ := h2; simp at hr
  | cons r rs =>
    have hv := partialValidate_reject db order_id (r :: rs) h1 h2
    have hp : processReturn db order_id req uid roid ids =
        .error .invalidReturnQuantity := by
      simp only [processReturn, hfind, hguard, hfull, hitems, hv, Bool.false_eq_true,
        if_false, ite_false]
    refine ⟨hp, ?_, rfl⟩
    unfold persistedAfterReturn
    rw [hp]

/-- Fixture for the C2 witness: one order line of quantity 1 with nothing
returned yet; requesting quantity 2 exceeds the remaining 1. -/
def c2w_db : DB :=
  ⟨[⟨"i1", "Shirt", none⟩], [⟨"i1", "M", 10, none, 5⟩],
   [⟨"o1", "1000", 10, none, "u1", none⟩],
   [⟨"oi1", "o1", "i1", "M", 1, 10, some 0⟩],
   [], [], []⟩

def c2w_req : ReturnRequest := ⟨some [⟨"oi1", 2⟩], "r", false, none⟩

/-- Witness for C2: the amended guard discharged on the concrete
over-quantity request. -/
theorem c2_witness :
    processReturn c2w_db "o1" c2w_req "u1" "ro1" ["ri1"] =
      .error .invalidReturnQuantity ∧
    persistedAfterReturn c2w_db "o1" c2w_req "u1" "ro1" ["ri1"] = c2w_db ∧
    statusOf .invalidReturnQuantity = 400 :=
  c2_partial_return_guard c2w_db "o1" c2w_req "u1" "ro1" ["ri1"]
    ⟨"o1", "1000", 10, none, "u1", none⟩ [⟨"oi1", 2⟩]
    (by with_unfolding_all rfl) (by with_unfolding_all rfl) rfl rfl
    (by
      intro r hr
      simp only [List.mem_singleton] at hr
      subst hr
      exact ⟨⟨"oi1", "o1", "i1", "M", 1, 10, some 0⟩, by with_unfolding_all rfl⟩)
    ⟨⟨"oi1", 2⟩, by simp, ⟨"oi1", "o1", "i1", "M", 1, 10, some 0⟩,
      by with_unfolding_all rfl, by with_unfolding_all decide⟩

/-! ## C9: enhanced-order payment breakdown -/

/-- Claim C9: in the enhanced flow with a shopper and a caller-supplied
breakdown, the request fails with 400 InconsistentPaymentBreakdown whenever
|order_payment + dues_payment + advance_payment - payment_amount| > 0.01,
and that failure commits nothing (it is raised before the commit, so the
session rolls back the stock/order mutations already made in it); when the
call succeeds, the Due rows appended are exactly a negative row for
dues_payment, a positive row for remaining_order_balance, and a negative
row for advance_payment, each present only when its amount is positive. -/
theorem c9_payment_breakdown :
    (∀ (db : DB) (req : EnhancedOrderCreate) (uid oid : String) (ids : List String)
       (code : String) (sh : ShopperR) (pa : Rat) (bd : PaymentBreakdown)
       (st : SaleLoopState),
       req.customer_code = some code →
       db.shoppers.find? (fun s => s.customer_code == code) = some sh →
       req.payment_amount = some pa →
       req.payment_breakdown = some bd →
       saleLoop db.items uid req.items ⟨db.item_sizes, 0, [], []⟩ = .ok st →
       |bd.order_payment + bd.dues_payment + bd.advance_payment - pa| > 1/100 →
       createEnhancedOrder db req uid oid ids = .error .paymentBreakdownMismatch ∧
       persistedAfterEnhanced db req uid oid ids = db ∧
       statusOf .paymentBreakdownMismatch = 400) ∧
    (∀ (db : DB) (req : EnhancedOrderCreate) (uid oid : String) (ids : List String)
       (code : String) (sh : ShopperR) (pa : Rat) (bd : PaymentBreakdown)
       (db' : DB) (o : OrderR),
       req.customer_code = some code →
       db.shoppers.find? (fun s => s.customer_code == code) = some sh →
       req.payment_amount = some pa →
       req.payment_breakdown = some bd →
       createEnhancedOrder db req uid oid ids = .ok (db', o) →
       db'.dues = db.dues ++
         ((if bd.dues_payment > 0 then
             [⟨sh.id, some oid, -bd.dues_payment,
               "Payment toward previous dues for Order " ++
                 nextTransactionId db.orders⟩]
           else []) ++
          (if bd.remaining_order_balance > 0 then
             [⟨sh.id, some oid, bd.remaining_order_balance,
               "Remaining balance for Order " ++ nextTransactionId db.orders⟩]
           else []) ++
          (if bd.advance_payment > 0 then
             [⟨sh.id, some oid, -bd.advance_payment,
               "Advance payment for future purchases. Order " ++
                 nextTransactionId db.orders⟩]
           else []))) := by
  constructor
  · intro db req uid oid ids code sh pa bd st hcode hsh hpa hbd hloop heps
    have hp : createEnhancedOrder db req uid oid ids =
        .error .paymentBreakdownMismatch := by
      simp only [createEnhancedOrder, resolveShopper, hcode, hsh, hpa, hbd, hloop,
        heps, if_true, gt_iff_lt]
    refine ⟨hp, ?_, rfl⟩
    unfold persistedAfterEnhanced
    rw [hp]
  · intro db req uid oid ids code sh pa bd db' o hcode hsh hpa hbd h
    simp only [createEnhancedOrder, resolveShopper, hcode, hsh, hpa, hbd] at h
    cases hloop : saleLoop db.items uid req.items ⟨db.item_sizes, 0, [], []⟩ with
    | error e => simp only [hloop] at h; simp at h
    | ok st =>
      simp only [hloop] at h
      by_cases h1 : |bd.order_payment + bd.dues_payment + bd.advance_payment - pa|
          > 1/100
      · rw [if_pos h1] at h; simp at h
      · rw [if_neg h1] at h
        by_cases h2 : |bd.remaining_dues -
            max 0 ((((db.dues.filter (fun d => d.shopper_id == sh.id)).map
              (fun d => d.amount)).sum) - bd.dues_payment)| > 1/100
        · rw [if_pos h2] at h; simp at h
        · rw [if_neg h2] at h
          by_cases h3 : |bd.remaining_order_balance -
              max 0 (st.total - bd.order_payment)| > 1/100
          · rw [if_pos h3] at h; simp at h
          · rw [if_neg h3] at h
            simp only [Except.ok.injEq, Prod.mk.injEq] at h
            rw [← h.1]

/-- Witness for C9: the mismatch conjunct discharged on the concrete
breakdown 50+30+10 against a stated payment of 100. -/
theorem c9_witness :
    createEnhancedOrder c9_db c9_req_bad "u1" "o1" ["oiX"] =
      .error .paymentBreakdownMismatch ∧
    persistedAfterEnhanced c9_db c9_req_bad "u1" "o1" ["oiX"] = c9_db ∧
    statusOf .paymentBreakdownMismatch = 400 :=
  c9_payment_breakdown.1 c9_db c9_req_bad "u1" "o1" ["oiX"] "C001"
    ⟨"s1", "C001"⟩ 100 ⟨50, 30, 10, 0, 0⟩
    ⟨[⟨"i1", "M", 50, none, 4⟩], 50, [⟨"i1", "M", 1, 50, some 0⟩],
     [⟨"i1", -1, InvType.sale, "Sale via cashier. Order Item ID: None", "u1"⟩]⟩
    (by with_unfolding_all rfl) (by with_unfolding_all rfl)
    (by with_unfolding_all rfl) (by with_unfolding_all rfl)
    (by with_unfolding_all rfl) (by norm_num)

/-! ## C1: all-or-nothing sale validation -/

lemma findItem_of_wf {tbl : List ItemR} {szs : List ItemSizeR} {isz : ItemSizeR}
    (hwf : sizesWellFormed tbl szs = true) (hmem : isz ∈ szs) :
    ∃ itm, findItem tbl isz.item_id = some itm := by
  have h2 := List.all_eq_true.mp hwf isz hmem
  have h3 : (findItem tbl isz.item_id).isSome := by
    obtain ⟨it, hit, hbeq⟩ := List.any_eq_true.mp h2
    exact List.find?_isSome.mpr ⟨it, hit, hbeq⟩
  exact Option.isSome_iff_exists.mp h3

lemma sizesWellFormed_update {tbl : List ItemR} (iid lbl : String)
    (f : ItemSizeR → ItemSizeR) (hf : ∀ s, (f s).item_id = s.item_id) :
    ∀ szs : List ItemSizeR, sizesWellFormed tbl szs = true →
      sizesWellFormed tbl (updateFirstSize szs iid lbl f) = true := by
  intro szs
  induction szs with
  | nil => intro _; rfl
  | cons s rest ih =>
    intro hwf
    simp only [sizesWellFormed, List.all_cons, Bool.and_eq_true] at hwf
    by_cases hk : (s.item_id == iid && s.size_label == lbl) = true
    · simp only [updateFirstSize, hk, if_true, sizesWellFormed, List.all_cons,
        Bool.and_eq_true, hf s]
      exact ⟨hwf.1, hwf.2⟩
    · simp only [updateFirstSize, hk, if_false, Bool.false_eq_true, ite_false,
        sizesWellFormed, List.all_cons, Bool.and_eq_true]
      exact ⟨hwf.1, ih hwf.2⟩

lemma firstLineFailure_cases :
    ∀ (ds : List OrderItemCreate) (szs : List ItemSizeR) (e : ApiError),
      firstLineFailure szs ds = some e →
      e = .itemSizeNotFound ∨ e = .insufficientStock := by
  intro ds
  induction ds with
  | nil => intro szs e hf; simp [firstLineFailure] at hf
  | cons d rest ih =>
    intro szs e hf
    unfold firstLineFailure at hf
    cases hfs : findItemSize szs d.item_id d.size_label with
    | none => simp only [hfs, Option.some.injEq] at hf; exact Or.inl hf.symm
    | some isz =>
      simp only [hfs] at hf
      by_cases hst : isz.stock < d.quantity
      · rw [if_pos hst] at hf
        simp only [Option.some.injEq] at hf
        exact Or.inr hf.symm
      · rw [if_neg hst] at hf; exact ih _ e hf

lemma saleLoop_error_of_firstFailure (tbl : List ItemR) (uid : String) :
    ∀ (ds : List OrderItemCreate) (st : SaleLoopState) (e : ApiError),
      sizesWellFormed tbl st.sizes = true →
      firstLineFailure st.sizes ds = some e →
      saleLoop tbl uid ds st = .error e := by
  intro ds
  induction ds with
  | nil => intro st e _ hf; simp [firstLineFailure] at hf
  | cons d rest ih =>
    intro st e hwf hf
    unfold firstLineFailure at hf
    cases hfs : findItemSize st.sizes d.item_id d.size_label with
    | none =>
      simp only [hfs, Option.some.injEq] at hf
      subst hf
      simp only [saleLoop, saleStep, hfs]
    | some isz =>
      simp only [hfs] at hf
      have hmem : isz ∈ st.sizes := List.mem_of_find?_eq_some hfs
      obtain ⟨itm, hitm⟩ := findItem_of_wf hwf hmem
      by_cases hst : isz.stock < d.quantity
      · rw [if_pos hst] at hf
        simp only [Option.some.injEq] at hf
        subst hf
        simp only [saleLoop, saleStep, hfs, if_pos hst, hitm]
      · rw [if_neg hst] at hf
        have hwf' : sizesWellFormed tbl
            (updateFirstSize st.sizes d.item_id d.size_label
              (fun s => { s with stock := s.stock - d.quantity })) = true :=
          sizesWellFormed_update d.item_id d.size_label
            (fun s => { s with stock := s.stock - d.quantity })
            (fun _ => rfl) st.sizes hwf
        simp only [saleLoop, saleStep, hfs, if_neg hst, hitm]
        exact ih _ e hwf' hf

lemma resolveShopper_of_resolvesB {shoppers : List ShopperR} {code : Option String}
    (h : shopperResolvesB shoppers code = true) :
    ∃ sid, resolveShopper shoppers code = .ok sid := by
  cases code with
  | none => exact ⟨none, rfl⟩
  | some c =>
    simp only [shopperResolvesB] at h
    have h3 : (shoppers.find? (fun s => s.customer_code == c)).isSome := by
      obtain ⟨sh, hsh, hbeq⟩ := List.any_eq_true.mp h
      exact List.find?_isSome.mpr ⟨sh, hsh, hbeq⟩
    obtain ⟨sh, hsh⟩ := Option.isSome_iff_exists.mp h3
    exact ⟨some sh.id, by simp only [resolveShopper, hsh]⟩

/-- Claim C1: sale creation is all-or-nothing.  Under foreign-key integrity
and a resolvable customer code, whenever the k-th line of the request is the
first to fail validation — its ItemSize is missing, or the running stock is
below its quantity — the whole request fails with exactly that error
(404 for a missing ItemSize, 400 for insufficient stock), and because the
exception is raised before `db.commit()`, the session is rolled back and the
persisted state equals the state before the call: no stock decrement,
InventoryHistory, Due, or Order/OrderItem row from lines 1..k-1 survives. -/
theorem c1_all_or_nothing :
    ∀ (db : DB) (req : OrderCreate) (uid oid : String) (ids : List String)
      (e : ApiError),
      sizesWellFormed db.items db.item_sizes = true →
      shopperResolvesB db.shoppers req.customer_code = true →
      firstLineFailure db.item_sizes req.items = some e →
      createOrderForCashier db req uid oid ids = .error e ∧
      persistedAfterSale db req uid oid ids = db ∧
      (e = .itemSizeNotFound ∨ e = .insufficientStock) ∧
      statusOf .itemSizeNotFound = 404 ∧
      statusOf .insufficientStock = 400 := by
  intro db req uid oid ids e hwf hshop hf
  obtain ⟨sid, hsid⟩ := resolveShopper_of_resolvesB hshop
  have hloop := saleLoop_error_of_firstFailure db.items uid req.items
    ⟨db.item_sizes, 0, [], []⟩ e hwf hf
  have hp : createOrderForCashier db req uid oid ids = .error e := by
    simp only [createOrderForCashier, hsid, hloop]
  refine ⟨hp, ?_, firstLineFailure_cases _ _ _ hf, rfl, rfl⟩
  unfold persistedAfterSale
  rw [hp]

/-- Fixture for the C1 witness: stock 3, two lines of quantity 2 against the
same size — the second line fails the stock check only because the first
line's decrement is visible to it. -/
def c1w_db : DB :=
  ⟨[⟨"i1", "Shirt", none⟩], [⟨"i1", "M", 10, none, 3⟩], [], [], [], [], []⟩

def c1w_req : OrderCreate :=
  ⟨[⟨"i1", "M", 2⟩, ⟨"i1", "M", 2⟩], none, none, true⟩

/-- Witness for C1: the theorem discharged on the concrete two-line request
whose second line is the first to fail (insufficient running stock). -/
theorem c1_witness :
    createOrderForCashier c1w_db c1w_req "u1" "o1" ["a", "b"] =
      .error .insufficientStock ∧
    persistedAfterSale c1w_db c1w_req "u1" "o1" ["a", "b"] = c1w_db ∧
    (ApiError.insufficientStock = .itemSizeNotFound ∨
      ApiError.insufficientStock = .insufficientStock) ∧
    statusOf .itemSizeNotFound = 404 ∧
    statusOf .insufficientStock = 400 :=
  c1_all_or_nothing c1w_db c1w_req "u1" "o1" ["a", "b"] .insufficientStock
    (by with_unfolding_all rfl) rfl (by with_unfolding_all rfl)

/-! ## C4 (amended): stock nonnegativity -/

/-- All stocks in a size table are nonnegative. -/
def stocksNonneg (szs : List ItemSizeR) : Prop :=
  ∀ sz ∈ szs, 0 ≤ sz.stock

lemma updateFirstSize_nonneg (iid lbl : String) (f : ItemSizeR → ItemSizeR) :
    ∀ szs : List ItemSizeR, stocksNonneg szs →
      (∀ y, findItemSize szs iid lbl = some y → 0 ≤ (f y).stock) →
      stocksNonneg (updateFirstSize szs iid lbl f) := by
  intro szs
  induction szs with
  | nil => intro _ _ sz hsz; simp [updateFirstSize] at hsz
  | cons s rest ih =>
    intro h0 hguard sz hsz
    by_cases hk : (s.item_id == iid && s.size_label == lbl) = true
    · have hfind : findItemSize (s :: rest) iid lbl = some s := by
        unfold findItemSize
        exact List.find?_cons_of_pos rest hk
      simp only [updateFirstSize, hk, if_true] at hsz
      rcases List.mem_cons.mp hsz with rfl | hmem
      · exact hguard s hfind
      · exact h0 _ (List.mem_cons_of_mem _ hmem)
    · have hrest : ∀ y, findItemSize rest iid lbl = some y → 0 ≤ (f y).stock := by
        intro y hy
        apply hguard
        unfold findItemSize
        rw [List.find?_cons_of_neg rest hk]
        exact hy
      simp only [updateFirstSize, hk, Bool.false_eq_true, ite_false] at hsz
      rcases List.mem_cons.mp hsz with rfl | hmem
      · exact h0 _ (List.mem_cons_self _ _)
      · exact ih (fun z hz => h0 z (List.mem_cons_of_mem _ hz)) hrest sz hmem

lemma saleLoop_nonneg (tbl : List ItemR) (uid : String) :
    ∀ (ds : List OrderItemCreate) (st st' : SaleLoopState),
      saleLoop tbl uid ds st = .ok st' →
      stocksNonneg st.sizes → stocksNonneg st'.sizes := by
  intro ds
  induction ds with
  | nil => intro st st' h hnn; cases h; exact hnn
  | cons d rest ih =>
    intro st st' h hnn
    cases hstep : saleStep tbl uid st d with
    | error e => simp only [saleLoop, hstep] at h; cases h
    | ok st1 =>
      simp only [saleLoop, hstep] at h
      refine ih st1 st' h ?_
      unfold saleStep at hstep
      cases hfs : findItemSize st.sizes d.item_id d.size_label with
      | none => simp only [hfs] at hstep; cases hstep
      | some isz =>
        simp only [hfs] at hstep
        by_cases hst : isz.stock < d.quantity
        · rw [if_pos hst] at hstep
          cases hfi : findItem tbl isz.item_id <;> simp only [hfi] at hstep <;>
            cases hstep
        · rw [if_neg hst] at hstep
          cases hfi : findItem tbl isz.item_id with
          | none => simp only [hfi] at hstep; cases hstep
          | some itm =>
            simp only [hfi, Except.ok.injEq] at hstep
            subst hstep
            apply updateFirstSize_nonneg _ _ _ _ hnn
            intro y hy
            rw [hfs] at hy
            cases hy
            simp only
            omega

lemma fullReturnLoop_nonneg (tbl : List ItemR) (hist0 : List InventoryHistoryR)
    (reason uid : String) :
    ∀ (ois : List OrderItemR) (st st' : FullReturnLoopState),
      fullReturnLoop tbl hist0 reason uid ois st = .ok st' →
      stocksNonneg st.sizes → stocksNonneg st'.sizes := by
  intro ois
  induction ois with
  | nil => intro st st' h hnn; cases h; exact hnn
  | cons oi rest ih =>
    intro st st' h hnn
    unfold fullReturnLoop at h
    by_cases hq : oi.quantity - totalReturnedForItem hist0 oi.item_id oi.id > 0
    · rw [if_pos hq] at h
      cases hfs : findItemSize st.sizes oi.item_id oi.size_label with
      | none =>
        simp only [hfs] at h
        cases hfi : findItem tbl oi.item_id <;> simp only [hfi] at h <;> cases h
      | some isz =>
        simp only [hfs] at h
        refine ih _ st' h ?_
        apply updateFirstSize_nonneg _ _ _ _ hnn
        intro y hy
        have := hnn y (List.mem_of_find?_eq_some hy)
        simp only
        omega
    · rw [if_neg hq] at h
      exact ih _ st' h hnn

lemma partialReturnLoop_nonneg (db : DB) (order_id reason uid : String) :
    ∀ (rs : List ReturnItemRequest) (st st' : PartialReturnLoopState),
      (∀ r ∈ rs, 0 ≤ r.quantity) →
      partialReturnLoop db order_id reason uid rs st = .ok st' →
      stocksNonneg st.sizes → stocksNonneg st'.sizes := by
  intro rs
  induction rs with
  | nil => intro st st' _ h hnn; cases h; exact hnn
  | cons r rest ih =>
    intro st st' hq h hnn
    have hqr := hq r (List.mem_cons_self _ _)
    have hqrest := fun r' hr' => hq r' (List.mem_cons_of_mem _ hr')
    unfold partialReturnLoop at h
    cases hoi : db.order_items.find?
        (fun oi => oi.id == r.item_id && oi.order_id == order_id) with
    | none =>
      simp only [hoi] at h
      exact ih _ st' hqrest h hnn
    | some oi =>
      simp only [hoi] at h
      cases hfs : findItemSize st.sizes oi.item_id oi.size_label with
      | none =>
        simp only [hfs] at h
        cases hfi : findItem db.items oi.item_id <;> simp only [hfi] at h <;> cases h
      | some isz =>
        simp only [hfs] at h
        refine ih _ st' hqrest h ?_
        apply updateFirstSize_nonneg _ _ _ _ hnn
        intro y hy
        have := hnn y (List.mem_of_find?_eq_some hy)
        simp only
        omega

lemma processReturn_full_nonneg (db : DB) (order_id : String) (req : ReturnRequest)
    (uid roid : String) (ids : List String) (db' : DB) (out : ReturnOutcome)
    (h : processReturn db order_id req uid roid ids = .ok (db', out))
    (hfull : req.return_full_order = true)
    (hnn : stocksNonneg db.item_sizes) : stocksNonneg db'.item_sizes := by
  unfold processReturn at h
  cases hford : db.orders.find? (fun o => o.id == order_id) with
  | none => simp only [hford] at h; cases h
  | some order =>
    simp only [hford] at h
    by_cases hguard : (hasReturnRecords db order && allItemsReturned db order) = true
    · rw [if_pos hguard] at h; cases h
    · rw [if_neg hguard, hfull, if_pos rfl] at h
      by_cases hany : (db.inventory_history.any
          (fun hh => sqlLike (entireOrderPattern order.id) hh.description)) = true
      · rw [if_pos hany] at h; cases h
      · rw [if_neg hany] at h
        cases hloop : fullReturnLoop db.items db.inventory_history req.reason uid
            (itemsOfOrder db order.id) ⟨db.item_sizes, [], [], []⟩ with
        | error e => simp only [hloop] at h; cases h
        | ok st =>
          simp only [hloop] at h
          have hnn' : stocksNonneg st.sizes :=
            fullReturnLoop_nonneg db.items db.inventory_history req.reason uid
              (itemsOfOrder db order.id) ⟨db.item_sizes, [], [], []⟩ st hloop hnn
          rcases hri : st.returned_items with _ | ⟨a, as⟩ <;>
            rcases hro : st.return_order_items with _ | ⟨b, bs⟩ <;>
            simp only [hri, hro, Except.ok.injEq, Prod.mk.injEq] at h <;>
            rw [← h.1] <;> exact hnn'

lemma processReturn_partial_nonneg (db : DB) (order_id : String)
    (req : ReturnRequest) (uid roid : String) (ids : List String) (db' : DB)
    (out : ReturnOutcome)
    (h : processReturn db order_id req uid roid ids = .ok (db', out))
    (hfull : req.return_full_order = false)
    (hq : ∀ l, req.item_returns = some l → ∀ r ∈ l, 0 ≤ r.quantity)
    (hnn : stocksNonneg db.item_sizes) : stocksNonneg db'.item_sizes := by
  unfold processReturn at h
  cases hford : db.orders.find? (fun o => o.id == order_id) with
  | none => simp only [hford] at h; cases h
  | some order =>
    simp only [hford] at h
    by_cases hguard : (hasReturnRecords db order && allItemsReturned db order) = true
    · rw [if_pos hguard] at h; cases h
    · rw [if_neg hguard, hfull] at h
      simp only [Bool.false_eq_true, ite_false] at h
      cases hir : req.item_returns with
      | none => simp only [hir] at h; cases h
      | some l =>
        cases l with
        | nil => simp only [hir] at h; cases h
        | cons r rs =>
          simp only [hir] at h
          cases hval : partialValidate db order_id (r :: rs) with
          | error e => simp only [hval] at h; cases h
          | ok u =>
            simp only [hval] at h
            cases hloop : partialReturnLoop db order_id req.reason uid (r :: rs)
                ⟨db.item_sizes, [], 0, [], []⟩ with
            | error e => simp only [hloop] at h; cases h
            | ok st =>
              simp only [hloop] at h
              have hnn' : stocksNonneg st.sizes :=
                partialReturnLoop_nonneg db order_id req.reason uid (r :: rs)
                  ⟨db.item_sizes, [], 0, [], []⟩ st (hq (r :: rs) hir) hloop hnn
              rcases hri : st.returned_items with _ | ⟨a, as⟩ <;>
                rcases hro : st.return_order_items with _ | ⟨b, bs⟩ <;>
                simp only [hri, hro, Except.ok.injEq, Prod.mk.injEq] at h <;>
                rw [← h.1] <;> exact hnn'

/-- Claim C4, amended: stock >= 0 is preserved by sale creation (for every
accepted request, including zero or negative line quantities), by full-order
returns, by partial returns whose quantities are nonnegative, and by restock
(whose schema enforces quantity > 0).  It is not an invariant of every
accepted request: the partial-return schema also accepts negative
quantities, and those can drive stock negative. -/
theorem c4_stock_nonneg :
    (∀ (db : DB) (req : OrderCreate) (uid oid : String) (ids : List String)
       (db' : DB) (o : OrderR),
       createOrderForCashier db req uid oid ids = .ok (db', o) →
       stocksNonneg db.item_sizes → stocksNonneg db'.item_sizes) ∧
    (∀ (db : DB) (order_id : String) (req : ReturnRequest) (uid roid : String)
       (ids : List String) (db' : DB) (out : ReturnOutcome),
       processReturn db order_id req uid roid ids = .ok (db', out) →
       req.return_full_order = true →
       stocksNonneg db.item_sizes → stocksNonneg db'.item_sizes) ∧
    (∀ (db : DB) (order_id : String) (req : ReturnRequest) (uid roid : String)
       (ids : List String) (db' : DB) (out : ReturnOutcome),
       processReturn db order_id req uid roid ids = .ok (db', out) →
       req.return_full_order = false →
       (∀ l, req.item_returns = some l → ∀ r ∈ l, 0 ≤ r.quantity) →
       stocksNonneg db.item_sizes → stocksNonneg db'.item_sizes) ∧
    (∀ (db : DB) (r : RestockRequest) (uid : String) (db' : DB),
       restockItem db r uid = .ok db' → 0 < r.quantity →
       stocksNonneg db.item_sizes → stocksNonneg db'.item_sizes) := by
  refine ⟨?_, ?_, ?_, ?_⟩
  · intro db req uid oid ids db' o h hnn
    unfold createOrderForCashier at h
    cases hr : resolveShopper db.shoppers req.customer_code with
    | error e => simp only [hr] at h; cases h
    | ok sid =>
      simp only [hr] at h
      cases hs : saleLoop db.items uid req.items ⟨db.item_sizes, 0, [], []⟩ with
      | error e => simp only [hs] at h; cases h
      | ok st =>
        simp only [hs, Except.ok.injEq, Prod.mk.injEq] at h
        have hst := saleLoop_nonneg db.items uid req.items
          ⟨db.item_sizes, 0, [], []⟩ st hs hnn
        rw [← h.1]
        exact hst
  · intro db order_id req uid roid ids db' out h hfull hnn
    exact processReturn_full_nonneg db order_id req uid roid ids db' out h hfull hnn
  · intro db order_id req uid roid ids db' out h hfull hq hnn
    exact processReturn_partial_nonneg db order_id req uid roid ids db' out h
      hfull hq hnn
  · intro db r uid db' h hqpos hnn
    unfold restockItem at h
    cases h1 : findItem db.items r.item_id with
    | none => simp only [h1] at h; cases h
    | some _ =>
      simp only [h1] at h
      cases h2 : findItemSize db.item_sizes r.item_id r.size_label with
      | none => simp only [h2] at h; cases h
      | some _ =>
        simp only [h2, Except.ok.injEq] at h
        rw [← h]
        apply updateFirstSize_nonneg _ _ _ _ hnn
        intro y hy
        have := hnn y (List.mem_of_find?_eq_some hy)
        simp only
        omega

/-- Fixtures for the C4 witness: a successful two-unit sale out of stock 3. -/
def c4w_db : DB :=
  ⟨[⟨"i1", "Shirt", none⟩], [⟨"i1", "M", 10, none, 3⟩], [], [], [], [], []⟩

def c4w_req : OrderCreate := ⟨[⟨"i1", "M", 2⟩], none, none, true⟩

/-- The state committed by the C4 witness sale. -/
def c4w_db' : DB :=
  ⟨[⟨"i1", "Shirt", none⟩], [⟨"i1", "M", 10, none, 1⟩],
   [⟨"o1", "1000", 20, none, "u1", none⟩],
   [⟨"a", "o1", "i1", "M", 2, 10, some 0⟩],
   [⟨"i1", -2, InvType.sale, "Sale via cashier. Order Item ID: None", "u1"⟩],
   [], []⟩

/-- Witness for C4: the sale conjunct discharged on a concrete sale. -/
theorem c4_witness : stocksNonneg c4w_db'.item_sizes :=
  c4_stock_nonneg.1 c4w_db c4w_req "u1" "o1" ["a"] c4w_db'
    ⟨"o1", "1000", 20, none, "u1", none⟩
    (by with_unfolding_all rfl)
    (by
      intro sz hsz
      simp only [c4w_db, List.mem_singleton] at hsz
      subst hsz
      norm_num)

/-! ## C10 (amended): the recorded order total -/

/-- The pricing-relevant view of an optional size row (everything
`specLineTotal` reads except the stock). -/
def pricingOf (o : Option ItemSizeR) : Option (String × String × Rat × Option Rat) :=
  o.map (fun s => (s.item_id, s.size_label, s.price, s.discount))

lemma pricingOf_findItemSize_update (iid lbl : String) (f : ItemSizeR → ItemSizeR)
    (hf : ∀ s, (f s).item_id = s.item_id ∧ (f s).size_label = s.size_label ∧
               (f s).price = s.price ∧ (f s).discount = s.discount) :
    ∀ (szs : List ItemSizeR) (i' l' : String),
      pricingOf (findItemSize (updateFirstSize szs iid lbl f) i' l') =
        pricingOf (findItemSize szs i' l') := by
  intro szs
  induction szs with
  | nil => intro i' l'; rfl
  | cons s rest ih =>
    intro i' l'
    by_cases hk : (s.item_id == iid && s.size_label == lbl) = true
    · simp only [updateFirstSize, hk, if_true]
      obtain ⟨h1, h2, h3, h4⟩ := hf s
      by_cases hp : (s.item_id == i' && s.size_label == l') = true
      · have hp' : ((f s).item_id == i' && (f s).size_label == l') = true := by
          rw [h1, h2]; exact hp
        unfold findItemSize
        simp only [List.find?, hp', hp]
        simp [pricingOf, h1, h2, h3, h4]
      · have hpf : (s.item_id == i' && s.size_label == l') = false :=
          Bool.eq_false_iff.mpr hp
        have hpf' : ((f s).item_id == i' && (f s).size_label == l') = false := by
          rw [h1, h2]; exact hpf
        unfold findItemSize
        simp only [List.find?, hpf', hpf]
    · simp only [updateFirstSize, hk, Bool.false_eq_true, ite_false]
      by_cases hp : (s.item_id == i' && s.size_label == l') = true
      · unfold findItemSize
        simp only [List.find?, hp]
      · have hpf : (s.item_id == i' && s.size_label == l') = false :=
          Bool.eq_false_iff.mpr hp
        unfold findItemSize
        simp only [List.find?, hpf]
        exact ih i' l'

lemma specLineTotal_update (tbl : List ItemR) (iid lbl : String)
    (f : ItemSizeR → ItemSizeR)
    (hf : ∀ s, (f s).item_id = s.item_id ∧ (f s).size_label = s.size_label ∧
               (f s).price = s.price ∧ (f s).discount = s.discount)
    (szs : List ItemSizeR) (d : OrderItemCreate) :
    specLineTotal tbl (updateFirstSize szs iid lbl f) d =
      specLineTotal tbl szs d := by
  have hp := pricingOf_findItemSize_update iid lbl f hf szs d.item_id d.size_label
  unfold specLineTotal
  cases h1 : findItemSize szs d.item_id d.size_label with
  | none =>
    rw [h1] at hp
    have h2 : findItemSize (updateFirstSize szs iid lbl f) d.item_id d.size_label
        = none := by
      cases h2 : findItemSize (updateFirstSize szs iid lbl f) d.item_id d.size_label
      · rfl
      · rw [h2] at hp; simp [pricingOf] at hp
    simp only [h2]
  | some y =>
    rw [h1] at hp
    cases h2 : findItemSize (updateFirstSize szs iid lbl f) d.item_id d.size_label with
    | none => rw [h2] at hp; simp [pricingOf] at hp
    | some y' =>
      rw [h2] at hp
      simp only [pricingOf, Option.map, Option.some.injEq, Prod.mk.injEq] at hp
      obtain ⟨hid, _, hpr, hdc⟩ := hp
      simp only [h2, hid, hpr, hdc]

lemma saleLoop_total (tbl : List ItemR) (uid : String) :
    ∀ (ds : List OrderItemCreate) (st st' : SaleLoopState),
      saleLoop tbl uid ds st = .ok st' →
      st'.total = st.total + (ds.map (specLineTotal tbl st.sizes)).sum := by
  intro ds
  induction ds with
  | nil => intro st st' h; cases h; simp
  | cons d rest ih =>
    intro st st' h
    cases hstep : saleStep tbl uid st d with
    | error e => simp only [saleLoop, hstep] at h; cases h
    | ok st1 =>
      simp only [saleLoop, hstep] at h
      have ht := ih st1 st' h
      unfold saleStep at hstep
      cases hfs : findItemSize st.sizes d.item_id d.size_label with
      | none => simp only [hfs] at hstep; cases hstep
      | some isz =>
        simp only [hfs] at hstep
        by_cases hst : isz.stock < d.quantity
        · rw [if_pos hst] at hstep
          cases hfi : findItem tbl isz.item_id <;> simp only [hfi] at hstep <;>
            cases hstep
        · rw [if_neg hst] at hstep
          cases hfi : findItem tbl isz.item_id with
          | none => simp only [hfi] at hstep; cases hstep
          | some itm =>
            simp only [hfi, Except.ok.injEq] at hstep
            subst hstep
            have hline : specLineTotal tbl st.sizes d =
                isz.price * (1 - resolveEffectiveDiscount
                  (itm.category_obj.bind (fun c => c.discount)) isz.discount / 100) *
                  (d.quantity : Rat) := by
              simp only [specLineTotal, hfs, hfi]
            have hrest : rest.map (specLineTotal tbl
                (updateFirstSize st.sizes d.item_id d.size_label
                  (fun s => { s with stock := s.stock - d.quantity }))) =
                rest.map (specLineTotal tbl st.sizes) := by
              apply List.map_congr_left
              intro a _
              exact specLineTotal_update tbl d.item_id d.size_label
                (fun s => { s with stock := s.stock - d.quantity })
                (fun _ => ⟨rfl, rfl, rfl, rfl⟩) st.sizes a
            rw [List.map_cons, List.sum_cons]
            simp only at ht
            rw [hrest] at ht
            rw [ht, hline]
            ring

/-- Claim C10, amended: the recorded Order.amount of a successful sale
equals the plain sum over its lines of
price * (1 - effective_discount/100) * quantity, with no flooring at 0 —
the total (and hence the persisted amount) can be negative for line
quantities the public interface accepts, as the counterexample shows. -/
theorem c10_order_total :
    ∀ (db : DB) (req : OrderCreate) (uid oid : String) (ids : List String)
      (db' : DB) (o : OrderR),
      createOrderForCashier db req uid oid ids = .ok (db', o) →
      o.amount = (req.items.map (specLineTotal db.items db.item_sizes)).sum := by
  intro db req uid oid ids db' o h
  unfold createOrderForCashier at h
  cases hr : resolveShopper db.shoppers req.customer_code with
  | error e => simp only [hr] at h; cases h
  | ok sid =>
    simp only [hr] at h
    cases hs : saleLoop db.items uid req.items ⟨db.item_sizes, 0, [], []⟩ with
    | error e => simp only [hs] at h; cases h
    | ok st =>
      simp only [hs, Except.ok.injEq, Prod.mk.injEq] at h
      have ht := saleLoop_total db.items uid req.items
        ⟨db.item_sizes, 0, [], []⟩ st hs
      rw [← h.2]
      simp only at ht
      rw [ht]
      ring

/-- Fixtures for the C10 witness: price 100, size discount 10, category
discount 0, quantity 2 — total 180. -/
def c10w_db' : DB :=
  ⟨[⟨"i1", "Shirt", some ⟨"c1", some 0⟩⟩], [⟨"i1", "M", 100, some 10, 3⟩],
   [⟨"o1", "1000", 180, none, "u1", none⟩],
   [⟨"oiX", "o1", "i1", "M", 2, 100, some 10⟩],
   [⟨"i1", -2, InvType.sale, "Sale via cashier. Order Item ID: None", "u1"⟩],
   [], []⟩

/-- Witness for C10: the amended total equation discharged on a concrete
sale. -/
theorem c10_witness :
    (OrderR.amount ⟨"o1", "1000", 180, none, "u1", none⟩) =
      (c10w_req.items.map (specLineTotal c10w_db.items c10w_db.item_sizes)).sum :=
  c10_order_total c10w_db c10w_req "u1" "o1" ["oiX"] c10w_db'
    ⟨"o1", "1000", 180, none, "u1", none⟩ (by with_unfolding_all rfl)

end POS
